import Mathlib

/-!
Shallow embedding of the korner-billing-service payment and wallet
transaction engine, together with proofs checking the natural-language
specification against the code.

Database tables (`balances`, `transactions`, `platform_fees`,
`payment_tokens`, `user_subscriptions`, `subscription_plans`, `users`)
are embedded as lists of rows inside a `DBState`; each `db.transaction`
block of the source becomes a single pure function on `DBState`, so the
atomic unit of work of a query is one Lean function application.
Decimal SQL / JS numbers are embedded as rationals.
-/

namespace Billing

/-- Transaction status column: `"pending" | "completed" | "failed" | "canceled"`. -/
inductive TxStatus
  | pending
  | completed
  | failed
  | canceled
deriving DecidableEq, Repr

/-- Transaction type column: `"deposit" | "withdraw" | "transfer" | "subscription"`. -/
inductive TxType
  | deposit
  | withdraw
  | transfer
  | subscription
deriving DecidableEq, Repr

/-- Transaction source column: `"wallet" | "card"`. -/
inductive TxSource
  | wallet
  | card
deriving DecidableEq, Repr

/-- Subscription payment method column: `"wallet" | "card"`. -/
inductive PayMethod
  | wallet
  | card
deriving DecidableEq, Repr

/-- A row of the `balances` table (key: user_id, currency_id — unique,
per the `onConflict(["user_id", "currency_id"])` constraint in
`createUserWallet`). -/
structure BalanceRow where
  user_id : Nat
  currency_id : Nat
  amount : ℚ
deriving DecidableEq, Repr

/-- A row of the `transactions` table (payment.model.ts `Transaction`).
The opaque JSON `transaction_data` payload is carried as the raw base64
string it was decoded from. -/
structure Txn where
  id : Nat
  user_id : Nat
  currency_id : Nat
  amount : ℚ
  txType : TxType
  source : TxSource
  status : Option TxStatus := none
  order_id : Option String := none
  payment_id : Option String := none
  user_subscription_id : Option Nat := none
  bar_id : Option String := none
  subscription_plan_id : Option Nat := none
  subscription_price_id : Option Nat := none
  transaction_data : Option String := none
deriving DecidableEq, Repr

/-- A row of the `platform_fees` table (fee.model.ts `PlatformFee`). -/
structure PlatformFee where
  id : Nat
  currency_id : Nat
  fee_percentage : ℚ
  min_fee_amount : Option ℚ := none
  max_fee_amount : Option ℚ := none
  is_active : Bool
deriving DecidableEq, Repr

/-- A row of the `payment_tokens` table (token.model.ts). The
`created_at` ordering used by `orderBy("created_at", "desc")` is
represented by the monotonically increasing row id. -/
structure TokenRow where
  id : Nat
  user_id : Nat
  token : String
  expired_at : Option String := none
  amount : Option ℚ := none
  pan_masked : Option String := none
deriving DecidableEq, Repr

/-- A row of the `user_subscriptions` table (subscription.model.ts
`UserSubscription`); `expired_at` is an epoch timestamp. -/
structure SubRow where
  id : Nat
  user_id : Nat
  subscription_plan_id : Nat
  is_auto_renewal : Bool
  payment_method : Option PayMethod := none
  masked_pan : Option String := none
  expired_at : Int := 0
deriving DecidableEq, Repr

/-- Subscription plan period column. -/
inductive PlanPeriod
  | daily
  | monthly
  | yearly
deriving DecidableEq, Repr

/-- A row of the `subscription_plans` table (only the columns read by
the embedded operations). -/
structure PlanRow where
  id : Nat
  period : PlanPeriod
deriving DecidableEq, Repr

/-- The relational state owned by the billing engine: one list of rows
per table, plus the next value of each auto-increment id sequence, plus
a trace of outbound gateway calls.  Each entry of `gatewayLog` records
which gateway endpoint was called and a snapshot of the `transactions`
table at the moment of the call, so that ordering properties (record
created before the gateway call) are expressible. -/
structure DBState where
  balances : List BalanceRow := []
  transactions : List Txn := []
  platform_fees : List PlatformFee := []
  payment_tokens : List TokenRow := []
  user_subscriptions : List SubRow := []
  subscription_plans : List PlanRow := []
  users : List Nat := []
  nextTxnId : Nat := 1
  nextFeeId : Nat := 1
  nextTokenId : Nat := 1
  nextSubId : Nat := 1
  gatewayLog : List (String × List Txn) := []
deriving DecidableEq, Repr

/-! ## wallet.model.ts -/

/-- `SELECT * FROM balances WHERE user_id = u AND currency_id = c` (first row). -/
def findBalanceRow (st : DBState) (userId currencyId : Nat) : Option BalanceRow :=
  st.balances.find? (fun b => b.user_id == userId && b.currency_id == currencyId)

/-- `UPDATE balances SET amount = f(amount) WHERE user_id = u AND currency_id = c`;
used for knex `increment` / `decrement`. -/
def mapBalanceRows (st : DBState) (userId currencyId : Nat) (f : ℚ → ℚ) : DBState :=
  { st with balances := st.balances.map (fun b =>
      if b.user_id == userId && b.currency_id == currencyId then
        { b with amount := f b.amount } else b) }

/-- wallet.model.ts `createUserWallet`: insert a zero balance row per
currency, `onConflict(["user_id", "currency_id"]).ignore()`. -/
def createUserWallet (st : DBState) (userId : Nat) (currencies : List Nat) : DBState :=
  currencies.foldl (fun s cid =>
    match findBalanceRow s userId cid with
    | some _ => s
    | none => { s with balances := s.balances ++ [⟨userId, cid, 0⟩] }) st

/-- wallet.model.ts `depositUserWallet`: inside one db.transaction,
increment the existing balance row, or insert a fresh row holding the
deposited amount when none exists. -/
def depositUserWallet (st : DBState) (userId currencyId : Nat) (amount : ℚ) : DBState :=
  match findBalanceRow st userId currencyId with
  | some _ => mapBalanceRows st userId currencyId (fun a => a + amount)
  | none => { st with balances := st.balances ++ [⟨userId, currencyId, amount⟩] }

/-- wallet.model.ts `checkUserBalance` result. -/
structure BalanceCheck where
  hasEnoughBalance : Bool
  currentBalance : ℚ
deriving DecidableEq, Repr

/-- wallet.model.ts `checkUserBalance` (via `getUserBalanceByCurrency`). -/
def checkUserBalance (st : DBState) (userId currencyId : Nat) (requiredAmount : ℚ) :
    BalanceCheck :=
  match findBalanceRow st userId currencyId with
  | none => ⟨false, 0⟩
  | some b => ⟨decide (b.amount ≥ requiredAmount), b.amount⟩

/-- Result of `deductUserWallet` / `deductUserWalletForSubscription`:
the `{ success, transactionId?, error? }` object. -/
inductive DeductResult
  | success (transactionId : Nat)
  | balanceNotFound
  | insufficient (current required : ℚ)
deriving DecidableEq, Repr

/-- payment.model.ts `CreateTransactionParams`. -/
structure CreateTransactionParams where
  userId : Nat
  currencyId : Nat
  amount : ℚ
  txType : TxType
  source : TxSource
  userSubscriptionId : Option Nat := none
  barId : Option String := none
  status : Option TxStatus := none
  orderId : Option String := none
  paymentId : Option String := none
  transactionData : Option String := none
  subscriptionPlanId : Option Nat := none
  subscriptionPriceId : Option Nat := none

/-- payment.model.ts `createTransaction` (= `createPaymentTransaction`):
insert a `transactions` row, returning the fresh id. -/
def createTransaction (st : DBState) (p : CreateTransactionParams) : Nat × DBState :=
  let id := st.nextTxnId
  (id, { st with
    transactions := st.transactions ++ [{
      id := id
      user_id := p.userId
      currency_id := p.currencyId
      amount := p.amount
      txType := p.txType
      source := p.source
      status := p.status
      order_id := p.orderId
      payment_id := p.paymentId
      user_subscription_id := p.userSubscriptionId
      bar_id := p.barId
      subscription_plan_id := p.subscriptionPlanId
      subscription_price_id := p.subscriptionPriceId
      transaction_data := p.transactionData }]
    nextTxnId := id + 1 })

/-- The fields of payment.model.ts `updateTransaction` that the
embedded call sites exercise.  A `none` field is an absent
(`undefined`) key and leaves the column untouched; `paymentId` is
doubly optional because `walletService.callback` copies a possibly-null
`payment_id` back into the row. -/
structure UpdateTransactionParams where
  status : Option TxStatus := none
  orderId : Option String := none
  paymentId : Option (Option String) := none
  userSubscriptionId : Option Nat := none
  transactionData : Option String := none

/-- payment.model.ts `updateTransaction` (= `updatePaymentTransaction`):
`UPDATE transactions SET ... WHERE id = ?` over the provided fields. -/
def updateTransaction (st : DBState) (id : Nat) (p : UpdateTransactionParams) : DBState :=
  { st with transactions := st.transactions.map (fun t =>
      if t.id == id then
        { t with
          status := match p.status with | some s => some s | none => t.status
          order_id := match p.orderId with | some o => some o | none => t.order_id
          payment_id := match p.paymentId with | some pi => pi | none => t.payment_id
          user_subscription_id :=
            match p.userSubscriptionId with | some u => some u | none => t.user_subscription_id
          transaction_data :=
            match p.transactionData with | some d => some d | none => t.transaction_data }
      else t) }

/-- wallet.model.ts `deductUserWallet`: one db.transaction that reads
the balance row, bails out (with no mutation) when the row is absent or
`current < amount`, and otherwise decrements the balance and inserts a
completed `withdraw`/`wallet` ledger transaction in the same unit. -/
def deductUserWallet (st : DBState) (userId currencyId : Nat) (amount : ℚ)
    (barId : Option String) : DeductResult × DBState :=
  match findBalanceRow st userId currencyId with
  | none => (.balanceNotFound, st)
  | some b =>
    if b.amount < amount then
      (.insufficient b.amount amount, st)
    else
      let st1 := mapBalanceRows st userId currencyId (fun a => a - amount)
      let (txId, st2) := createTransaction st1 {
        userId := userId
        currencyId := currencyId
        amount := amount
        txType := .withdraw
        source := .wallet
        barId := barId
        status := some .completed }
      (.success txId, st2)

/-- wallet.model.ts `deductUserWalletForSubscription`: identical atomic
unit, but the ledger row has type `subscription` and links the
subscription id. -/
def deductUserWalletForSubscription (st : DBState) (userId currencyId : Nat) (amount : ℚ)
    (userSubscriptionId : Nat) : DeductResult × DBState :=
  match findBalanceRow st userId currencyId with
  | none => (.balanceNotFound, st)
  | some b =>
    if b.amount < amount then
      (.insufficient b.amount amount, st)
    else
      let st1 := mapBalanceRows st userId currencyId (fun a => a - amount)
      let (txId, st2) := createTransaction st1 {
        userId := userId
        currencyId := currencyId
        amount := amount
        txType := .subscription
        source := .wallet
        userSubscriptionId := some userSubscriptionId
        status := some .completed }
      (.success txId, st2)

/-! ## payment.model.ts queries -/

/-- payment.model.ts `getTransactionByOrderId`:
`SELECT * FROM transactions WHERE order_id = ?` (first row). -/
def getTransactionByOrderId (st : DBState) (orderId : String) : Option Txn :=
  st.transactions.find? (fun t => t.order_id == some orderId)

/-- payment.model.ts `getTransactionById`. -/
def getTransactionById (st : DBState) (id : Nat) : Option Txn :=
  st.transactions.find? (fun t => t.id == id)

/-- payment.model.ts `hasUserPurchasedBar`: a completed,
non-subscription transaction of this user for this bar exists. -/
def hasUserPurchasedBar (st : DBState) (userId : Nat) (barId : String) : Bool :=
  (st.transactions.find? (fun t =>
    t.user_id == userId && t.bar_id == some barId &&
    t.status == some .completed && t.txType != .subscription)).isSome

/-! ## token.model.ts -/

/-- token.model.ts `CreateTokenBody`. -/
structure CreateTokenBody where
  userId : Nat
  token : String
  expired_at : Option String := none
  amount : Option ℚ := none
  pan_masked : Option String := none

/-- token.model.ts `createToken`: insert a `payment_tokens` row. -/
def createToken (st : DBState) (b : CreateTokenBody) : TokenRow × DBState :=
  let row : TokenRow := {
    id := st.nextTokenId
    user_id := b.userId
    token := b.token
    expired_at := b.expired_at
    amount := b.amount
    pan_masked := b.pan_masked }
  (row, { st with payment_tokens := st.payment_tokens ++ [row],
                  nextTokenId := st.nextTokenId + 1 })

/-- token.model.ts `getPaymentTokenById`:
`SELECT * FROM payment_tokens WHERE id = ? AND user_id = ?` (first row). -/
def getPaymentTokenById (st : DBState) (tokenId userId : Nat) : Option TokenRow :=
  st.payment_tokens.find? (fun t => t.id == tokenId && t.user_id == userId)

/-! ## fee.model.ts -/

/-- fee.model.ts `FeeCalculationResult`. -/
structure FeeCalculationResult where
  originalAmount : ℚ
  feeAmount : ℚ
  finalAmount : ℚ
  feePercentage : ℚ
deriving DecidableEq, Repr

/-- fee.model.ts `getActiveFeeForCurrency`:
`SELECT * FROM platform_fees WHERE currency_id = ? AND is_active` (first row). -/
def getActiveFeeForCurrency (st : DBState) (currencyId : Nat) : Option PlatformFee :=
  st.platform_fees.find? (fun f => f.currency_id == currencyId && f.is_active)

/-- JS `Math.round(q * 100) / 100`: round to 2 decimal places, halves
toward positive infinity (`Math.round(x) = floor(x + 0.5)`). -/
def round2 (q : ℚ) : ℚ := ((q * 100 + 1/2).floor : ℚ) / 100

/-- fee.model.ts `calculateFee`, abstracted over the active-rule lookup
result.  The `if (fee.min_fee_amount && ...)` guards use JS truthiness:
a null/absent bound — or a bound equal to 0 — is skipped.  Rounding to
2 decimals happens after the min/max clamping, and `finalAmount` is
computed from the already-rounded fee. -/
def calculateFeeWith (fee? : Option PlatformFee) (amount : ℚ) : FeeCalculationResult :=
  match fee? with
  | none => ⟨amount, 0, amount, 0⟩
  | some fee =>
    let feeAmount0 := amount * fee.fee_percentage / 100
    let feeAmount1 := match fee.min_fee_amount with
      | some m => if m ≠ 0 ∧ feeAmount0 < m then m else feeAmount0
      | none => feeAmount0
    let feeAmount2 := match fee.max_fee_amount with
      | some m => if m ≠ 0 ∧ feeAmount1 > m then m else feeAmount1
      | none => feeAmount1
    let feeAmount := round2 feeAmount2
    let finalAmount := round2 (amount - feeAmount)
    ⟨amount, feeAmount, finalAmount, fee.fee_percentage⟩

/-- fee.model.ts `calculateFee` against the database state. -/
def calculateFee (st : DBState) (amount : ℚ) (currencyId : Nat) : FeeCalculationResult :=
  calculateFeeWith (getActiveFeeForCurrency st currencyId) amount

/-- fee.model.ts `createPlatformFee` input. -/
structure FeeData where
  currency_id : Nat
  fee_percentage : ℚ
  min_fee_amount : Option ℚ := none
  max_fee_amount : Option ℚ := none

/-- fee.model.ts `createPlatformFee`: in one db.transaction, deactivate
every active rule of the currency, then insert the new rule as active. -/
def createPlatformFee (st : DBState) (d : FeeData) : PlatformFee × DBState :=
  let deactivated := st.platform_fees.map (fun f =>
    if f.currency_id == d.currency_id && f.is_active then { f with is_active := false } else f)
  let newFee : PlatformFee := {
    id := st.nextFeeId
    currency_id := d.currency_id
    fee_percentage := d.fee_percentage
    min_fee_amount := d.min_fee_amount
    max_fee_amount := d.max_fee_amount
    is_active := true }
  (newFee, { st with platform_fees := deactivated ++ [newFee], nextFeeId := st.nextFeeId + 1 })

/-- fee.model.ts `updatePlatformFee` input: a `none` field is an absent
(`undefined`) key; `min_fee_amount` and `max_fee_amount` columns are
nullable, hence doubly optional. -/
structure FeeUpdateData where
  fee_percentage : Option ℚ := none
  min_fee_amount : Option (Option ℚ) := none
  max_fee_amount : Option (Option ℚ) := none
  is_active : Option Bool := none

/-- fee.model.ts `updatePlatformFee`:
`UPDATE platform_fees SET ... WHERE id = ?` over the provided fields —
with no deactivation of any other rule of the same currency. -/
def updatePlatformFee (st : DBState) (feeId : Nat) (u : FeeUpdateData) :
    Option PlatformFee × DBState :=
  let upd := fun (f : PlatformFee) =>
    { f with
      fee_percentage := match u.fee_percentage with | some p => p | none => f.fee_percentage
      min_fee_amount := match u.min_fee_amount with | some m => m | none => f.min_fee_amount
      max_fee_amount := match u.max_fee_amount with | some m => m | none => f.max_fee_amount
      is_active := match u.is_active with | some a => a | none => f.is_active }
  match st.platform_fees.find? (fun f => f.id == feeId) with
  | none => (none, st)
  | some f =>
    (some (upd f),
     { st with platform_fees := st.platform_fees.map (fun g => if g.id == feeId then upd g else g) })

/-! ## statusMapper.ts -/

/-- JS `String.prototype.toLowerCase()` restricted to the ASCII range
the gateway vocabulary lives in: lower-case every character. -/
def jsToLower (s : String) : String := String.mk (s.data.map Char.toLower)

/-- The internal four-state status vocabulary is `TxStatus`. -/
def completedVocab : List String := ["success", "completed", "paid", "approved", "withdraw"]

/-- Gateway strings mapped to `failed`. -/
def failedVocab : List String := ["failed", "error", "declined", "rejected"]

/-- Gateway strings mapped to `canceled`. -/
def canceledVocab : List String := ["cancelled", "canceled", "cancel"]

/-- statusMapper.ts `mapPaymentStatus`: lower-case the gateway status
string, then map through the switch; every unlisted string falls into
the `default` branch and yields `pending`. -/
def mapPaymentStatus (paymentStatus : String) : TxStatus :=
  let s := jsToLower paymentStatus
  if completedVocab.contains s then .completed
  else if failedVocab.contains s then .failed
  else if canceledVocab.contains s then .canceled
  else .pending

/-! ## payment/subscription utils: signature verification

`verifyResponseSignature` recomputes `createHmac("sha512", secretKey)
.update(data).digest("hex")` and throws unless it equals `sign`
byte-for-byte.  The HMAC-SHA512 primitive itself is kept abstract: the
embedded operations take the keyed hash as an explicit function
argument `hmac : String → String → String` (secret, data ↦ hex digest),
so every theorem about signature handling holds for an arbitrary
keyed-hash function. -/

/-- utils `verifyResponseSignature`, as a Boolean check: `true` means
the recomputed digest byte-equals the provided `sign` (no throw). -/
def verifyResponseSignature (hmac : String → String → String)
    (data sign secretKey : String) : Bool :=
  hmac secretKey data == sign

/-! ## subscription.model.ts -/

/-- subscription.model.ts `CreateSubscriptionParams`. -/
structure CreateSubscriptionParams where
  userId : Nat
  subscriptionPlanId : Nat
  isAutoRenewal : Bool := false
  paymentMethod : Option PayMethod := none
  maskedPan : Option String := none

/-- subscription.model.ts `createSubscription`: one db.transaction that
checks the plan and the user exist (throwing otherwise — surfaced here
as `.error`) and inserts the new `user_subscriptions` row with
`expired_at = NOW() + interval(plan.period)`.  The wall clock is not
modelled; the fresh row carries the default timestamp. -/
def createSubscription (st : DBState) (p : CreateSubscriptionParams) :
    Except String SubRow × DBState :=
  match st.subscription_plans.find? (fun pl => pl.id == p.subscriptionPlanId) with
  | none => (.error "Subscription plan not found", st)
  | some _plan =>
    if !st.users.contains p.userId then (.error "User not found", st)
    else
      let row : SubRow := {
        id := st.nextSubId
        user_id := p.userId
        subscription_plan_id := p.subscriptionPlanId
        is_auto_renewal := p.isAutoRenewal
        payment_method := p.paymentMethod
        masked_pan := p.maskedPan }
      (.ok row, { st with user_subscriptions := st.user_subscriptions ++ [row],
                          nextSubId := st.nextSubId + 1 })

/-! ## External collaborators and the gateway

The payment gateway, the profile/content service and the base64/JSON
codec are external to the engine; they enter the embedding as an
explicit environment.  An outbound gateway call is modelled by
appending to `gatewayLog` and reading the response from the
environment. -/

/-- JS truthiness of a nullable number: null/undefined and 0 are falsy. -/
def natTruthy : Option Nat → Bool
  | none => false
  | some n => n != 0

/-- JS truthiness of a nullable numeric amount. -/
def ratTruthy : Option ℚ → Bool
  | none => false
  | some q => q != 0

/-- JS truthiness of a nullable string: null/undefined and "" are falsy. -/
def strTruthy : Option String → Bool
  | none => false
  | some s => s != ""

/-- The gateway `response.data` object `{data, payment_id, sign, success}`;
`success : none` models an absent (`undefined`) field. -/
structure GatewayResp where
  data : String := ""
  payment_id : String := ""
  sign : String := ""
  success : Option Bool := none
deriving DecidableEq, Repr

/-- The bar (purchasable item) fetched from the main service:
`profile_id`, `is_monetized` and the `monetized_details` payload
(`price`, `currencyCode`), with absent fields as `none`. -/
structure Bar where
  profile_id : String
  is_monetized : Bool
  price : Option ℚ := none
  currencyCode : Option String := none
deriving DecidableEq, Repr

/-- The decoded gateway payment response (`DecodedPaymentData`):
`order_id`, `payment_status`, plus an `operation_status` read through
the index signature (absent unless the gateway sends it). -/
structure DecodedPaymentData where
  order_id : String
  payment_status : String
  operation_status : Option String := none
deriving DecidableEq, Repr

/-- The decoded webhook callback payload (`DecodedCallbackData`), with
`payer_info.pan_masked` flattened. -/
structure DecodedCallbackData where
  payment_id : Int := 0
  order_id : String
  operation_status : String
  recurrent_token : String := ""
  amount : ℚ := 0
  payment_date : String := ""
  pan_masked : String := ""
deriving DecidableEq, Repr

/-- The environment of external collaborators: main-service lookups,
the gateway responses (as functions of the request that was sent), the
base64/JSON codec, and the keyed hash with the shared secret. -/
structure Env where
  getBarById : String → Option Bar := fun _ => none
  getUserIdByProfileId : String → Option Nat := fun _ => none
  hasActiveSubscription : Nat → Bool := fun _ => false
  getProfileUserId : String → Option Nat := fun _ => none
  recurrentResp : String → ℚ → GatewayResp := fun _ _ => {}
  createResp : ℚ → String → GatewayResp := fun _ _ => {}
  decodePayment : String → Option DecodedPaymentData := fun _ => none
  decodeCallback : String → Option DecodedCallbackData := fun _ => none
  hmac : String → String → String := fun _ _ => ""
  secretKey : String := ""

/-- Record an outbound gateway call; the entry snapshots the
`transactions` table at the moment the request leaves. -/
def logGateway (st : DBState) (kind : String) : DBState :=
  { st with gatewayLog := st.gatewayLog ++ [(kind, st.transactions)] }

/-! ## payment.service.ts -/

/-- `payment_type` of a purchase request. -/
inductive PaymentType
  | wallet
  | token
  | card
deriving DecidableEq, Repr

/-- payment.service.ts `CreatePaymentBody` (redirect URLs are opaque
pass-through data and are not carried). -/
structure CreatePaymentBody where
  email : String
  payment_type : PaymentType
  currency_id : Nat := 1
  token_id : Option Nat := none
  bar_id : String
deriving DecidableEq, Repr

/-- The thrown errors of the purchase / top-up / callback flows. -/
inductive PayError
  | missingFields
  | barNotFound
  | notMonetized
  | ownerUnavailable
  | monetizationIncomplete
  | alreadyPurchased
  | tokenIdRequired
  | insufficientBalance (current required : ℚ)
  | deductFailed
  | tokenNotFound
  | invalidApiResponse
  | invalidSignature
  | decodeFailed
  | invalidDataFormat
  | transactionNotFound
deriving DecidableEq, Repr

/-- The success payload of `createPayment` / `topUp`, reduced to the
fields the properties are about. -/
structure PayOutcome where
  payment_type : PaymentType
  isPaymentSuccessful : Option Bool := none
  transaction_id : Option Nat := none
deriving DecidableEq, Repr

/-- The `try { ... getProfileById ... calculateFee ... depositUserWallet
... createPaymentTransaction ... } catch { log }` block crediting the
bar owner the fee-reduced `finalAmount` after a successful purchase. -/
def creditBarOwner (env : Env) (st : DBState) (profileId : String) (amount : ℚ)
    (currencyId : Nat) (source : TxSource) (barId : String)
    (orderId : Option String) (paymentId : Option String) : DBState :=
  match env.getProfileUserId profileId with
  | none => st
  | some sellerUid =>
    let feeCalculation := calculateFee st amount currencyId
    let ownerAmount := feeCalculation.finalAmount
    let st1 := depositUserWallet st sellerUid currencyId ownerAmount
    (createTransaction st1 {
      userId := sellerUid
      currencyId := currencyId
      amount := ownerAmount
      txType := .deposit
      source := source
      status := some .completed
      barId := some barId
      orderId := orderId
      paymentId := paymentId }).2

/-- payment.service.ts `paymentService.createPayment`: validate the bar
and its owner, reject duplicate purchases, create the pending
transaction record for the gateway-funded paths, then run the
wallet / token / card branch. -/
def createPayment (env : Env) (st : DBState) (userId : Nat) (body : CreatePaymentBody) :
    Except PayError PayOutcome × DBState :=
  if body.email == "" || body.bar_id == "" then (.error .missingFields, st)
  else match env.getBarById body.bar_id with
  | none => (.error .barNotFound, st)
  | some bar =>
    if !bar.is_monetized then (.error .notMonetized, st)
    else
      let ownerId := env.getUserIdByProfileId bar.profile_id
      if !natTruthy ownerId then (.error .ownerUnavailable, st)
      else if !env.hasActiveSubscription (ownerId.getD 0) then (.error .ownerUnavailable, st)
      else if !(ratTruthy bar.price && strTruthy bar.currencyCode) then
        (.error .monetizationIncomplete, st)
      else
        let finalAmount := (bar.price).getD 0
        let finalCurrencyId := body.currency_id
        if hasUserPurchasedBar st userId body.bar_id then (.error .alreadyPurchased, st)
        else if body.payment_type == .token && !natTruthy body.token_id then
          (.error .tokenIdRequired, st)
        else
          match body.payment_type with
          | .wallet =>
            let balanceCheck := checkUserBalance st userId finalCurrencyId finalAmount
            if !balanceCheck.hasEnoughBalance then
              (.error (.insufficientBalance balanceCheck.currentBalance finalAmount), st)
            else
              let (deductionResult, st1) :=
                deductUserWallet st userId finalCurrencyId finalAmount (some body.bar_id)
              match deductionResult with
              | .success txId =>
                let st2 := creditBarOwner env st1 bar.profile_id finalAmount finalCurrencyId
                  .wallet body.bar_id none none
                (.ok ⟨.wallet, none, some txId⟩, st2)
              | _ => (.error .deductFailed, st1)
          | .token =>
            let (transactionId, st1) := createTransaction st {
              userId := userId
              currencyId := finalCurrencyId
              amount := finalAmount
              txType := .withdraw
              source := .card
              status := some .pending
              barId := some body.bar_id }
            match getPaymentTokenById st1 (body.token_id.getD 0) userId with
            | none => (.error .tokenNotFound, st1)
            | some paymentToken =>
              let st2 := logGateway st1 "payment/recurrent"
              let resp := env.recurrentResp paymentToken.token finalAmount
              if resp.success == none || resp.data == "" || resp.payment_id == "" ||
                  resp.sign == "" then
                (.error .invalidApiResponse, st2)
              else if !verifyResponseSignature env.hmac resp.data resp.sign env.secretKey then
                (.error .invalidSignature, st2)
              else match env.decodePayment resp.data with
              | none => (.error .decodeFailed, st2)
              | some dec =>
                let isPaymentSuccessful := resp.success == some true &&
                  (dec.payment_status == "success" || dec.payment_status == "withdraw" ||
                   dec.operation_status == some "success")
                let st3 := updateTransaction st2 transactionId {
                  status := some (if isPaymentSuccessful then .completed
                                  else mapPaymentStatus dec.payment_status)
                  orderId := some dec.order_id
                  paymentId := some (some resp.payment_id)
                  transactionData := some resp.data }
                let st4 :=
                  if isPaymentSuccessful then
                    creditBarOwner env st3 bar.profile_id finalAmount finalCurrencyId
                      .card body.bar_id (some dec.order_id) (some resp.payment_id)
                  else st3
                (.ok ⟨.token, some isPaymentSuccessful, some transactionId⟩, st4)
          | .card =>
            let (transactionId, st1) := createTransaction st {
              userId := userId
              currencyId := finalCurrencyId
              amount := finalAmount
              txType := .withdraw
              source := .card
              status := some .pending
              barId := some body.bar_id }
            let st2 := logGateway st1 "payment/create"
            let resp := env.createResp finalAmount body.email
            if resp.success == none || resp.data == "" || resp.payment_id == "" ||
                resp.sign == "" then
              (.error .invalidApiResponse, st2)
            else if !verifyResponseSignature env.hmac resp.data resp.sign env.secretKey then
              (.error .invalidSignature, st2)
            else match env.decodePayment resp.data with
            | none => (.error .decodeFailed, st2)
            | some dec =>
              let st3 := updateTransaction st2 transactionId {
                status := some (mapPaymentStatus dec.payment_status)
                orderId := some dec.order_id
                paymentId := some (some resp.payment_id)
                transactionData := some resp.data }
              (.ok ⟨.card, resp.success, some transactionId⟩, st3)

/-- payment.service.ts `paymentService.callback`: decode, verify the
signature, match the record by `order_id`; on `operation_status ===
"success"` store the recurring token, mark the record completed and —
only when the matched record was not already completed — credit the
bar owner; otherwise mark the record failed. -/
def paymentServiceCallback (env : Env) (st : DBState) (data sign : String) :
    Except PayError Txn × DBState :=
  match env.decodeCallback data with
  | none => (.error .invalidDataFormat, st)
  | some decodedData =>
    if !verifyResponseSignature env.hmac data sign env.secretKey then
      (.error .invalidSignature, st)
    else match getTransactionByOrderId st decodedData.order_id with
    | none => (.error .transactionNotFound, st)
    | some transaction =>
      if decodedData.operation_status == "success" then
        let st1 := (createToken st {
          userId := transaction.user_id
          token := decodedData.recurrent_token
          expired_at := some decodedData.payment_date
          amount := some decodedData.amount
          pan_masked := some decodedData.pan_masked }).2
        let st2 := updateTransaction st1 transaction.id {
          status := some .completed
          orderId := some decodedData.order_id
          paymentId := some (some (toString decodedData.payment_id))
          transactionData := some data }
        let st3 :=
          match transaction.bar_id with
          | some barId =>
            if barId != "" && transaction.status != some .completed then
              match env.getBarById barId with
              | some bar =>
                creditBarOwner env st2 bar.profile_id transaction.amount
                  transaction.currency_id .card barId (some decodedData.order_id)
                  (some (toString decodedData.payment_id))
              | none => st2
            else st2
          | none => st2
        (.ok transaction, st3)
      else
        let st1 := updateTransaction st transaction.id {
          status := some .failed
          orderId := some decodedData.order_id
          paymentId := some (some (toString decodedData.payment_id))
          transactionData := some data }
        (.ok transaction, st1)

/-! ## wallet.service.ts (walletService) -/

/-- `paymentType` of a top-up request: `"card" | "token"`. -/
inductive TopUpType
  | card
  | token
deriving DecidableEq, Repr

/-- wallet.service.ts `TopUpBody`. -/
structure TopUpBody where
  amount : ℚ
  email : String
  paymentType : TopUpType
  currencyId : Nat := 1
  tokenId : Option Nat := none
deriving DecidableEq, Repr

/-- wallet.service.ts `walletService.topUp`: validate, create the
pending deposit record, then charge through the stored token or start
a hosted card checkout.  A successful token charge credits the wallet
immediately (the `recurrent_` order prefix suppresses the later
callback credit). -/
def topUp (env : Env) (st : DBState) (userId : Nat) (body : TopUpBody) :
    Except PayError PayOutcome × DBState :=
  if body.amount == 0 || body.email == "" then (.error .missingFields, st)
  else if body.paymentType == .token && !natTruthy body.tokenId then
    (.error .tokenIdRequired, st)
  else
    let (transactionId, st1) := createTransaction st {
      userId := userId
      currencyId := body.currencyId
      amount := body.amount
      txType := .deposit
      source := .card
      status := some .pending }
    match body.paymentType with
    | .token =>
      match getPaymentTokenById st1 (body.tokenId.getD 0) userId with
      | none => (.error .tokenNotFound, st1)
      | some paymentToken =>
        let st2 := logGateway st1 "payment/recurrent"
        let resp := env.recurrentResp paymentToken.token body.amount
        if resp.success == none || resp.data == "" || resp.payment_id == "" ||
            resp.sign == "" then
          (.error .invalidApiResponse, st2)
        else if !verifyResponseSignature env.hmac resp.data resp.sign env.secretKey then
          (.error .invalidSignature, st2)
        else match env.decodePayment resp.data with
        | none => (.error .decodeFailed, st2)
        | some dec =>
          let isPaymentSuccessful := resp.success == some true &&
            (dec.payment_status == "success" || dec.payment_status == "withdraw" ||
             dec.operation_status == some "success")
          let st3 :=
            if isPaymentSuccessful then
              depositUserWallet st2 userId body.currencyId body.amount
            else st2
          let st4 := updateTransaction st3 transactionId {
            status := some (if isPaymentSuccessful then .completed
                            else mapPaymentStatus dec.payment_status)
            orderId := some dec.order_id
            paymentId := some (some resp.payment_id)
            transactionData := some resp.data }
          (.ok ⟨.token, some isPaymentSuccessful, some transactionId⟩, st4)
    | .card =>
      let st2 := logGateway st1 "payment/create"
      let resp := env.createResp body.amount body.email
      if resp.success == none || resp.data == "" || resp.payment_id == "" ||
          resp.sign == "" then
        (.error .invalidApiResponse, st2)
      else if !verifyResponseSignature env.hmac resp.data resp.sign env.secretKey then
        (.error .invalidSignature, st2)
      else match env.decodePayment resp.data with
      | none => (.error .decodeFailed, st2)
      | some dec =>
        let st3 := updateTransaction st2 transactionId {
          status := some (mapPaymentStatus dec.payment_status)
          orderId := some dec.order_id
          paymentId := some (some resp.payment_id)
          transactionData := some resp.data }
        (.ok ⟨.card, resp.success, some transactionId⟩, st3)

/-- wallet.service.ts `walletService.callback`: decode, verify the
signature, match the record by `order_id`; when `operation_status ===
"success"` and the matched record is a non-recurrent deposit, store the
recurring token (if any) and credit the wallet with the record's
amount; finally set the record completed or failed.  Note: the deposit
branch does not consult the current status of the matched record. -/
def walletServiceCallback (env : Env) (st : DBState) (data sign : String) :
    Except PayError Txn × DBState :=
  match env.decodeCallback data with
  | none => (.error .invalidDataFormat, st)
  | some decodedData =>
    if !verifyResponseSignature env.hmac data sign env.secretKey then
      (.error .invalidSignature, st)
    else match getTransactionByOrderId st decodedData.order_id with
    | none => (.error .transactionNotFound, st)
    | some transaction =>
      let isRecurrentPayment := decodedData.order_id.startsWith "recurrent_"
      let st1 :=
        if decodedData.operation_status == "success" && transaction.txType == .deposit &&
            !isRecurrentPayment then
          let stTok :=
            if decodedData.recurrent_token != "" then
              (createToken st {
                userId := transaction.user_id
                token := decodedData.recurrent_token
                expired_at := some decodedData.payment_date
                amount := some decodedData.amount
                pan_masked := some decodedData.pan_masked }).2
            else st
          depositUserWallet stTok transaction.user_id transaction.currency_id transaction.amount
        else st
      let st2 := updateTransaction st1 transaction.id {
        status := some (if decodedData.operation_status == "success" then .completed
                        else .failed)
        orderId := some decodedData.order_id
        paymentId := some transaction.payment_id
        transactionData := some data }
      (.ok transaction, st2)

/-! ## subscriptionRenewal.service.ts -/

/-- The `getExpiringSubscriptions` query row joining
`user_subscriptions`, `subscription_plans` and prices. -/
structure ExpiringSubscription where
  subscription_id : Nat
  user_id : Nat
  subscription_plan_id : Nat
  payment_method : PayMethod
  masked_pan : Option String := none
  price_id : Option Nat := none
  currency_id : Option Nat := none
  price : Option ℚ := none
deriving DecidableEq, Repr

/-- `disableAutoRenewal`: `UPDATE user_subscriptions SET
is_auto_renewal = false WHERE id = ?`. -/
def disableAutoRenewal (st : DBState) (subscriptionId : Nat) : DBState :=
  { st with user_subscriptions := st.user_subscriptions.map (fun r =>
      if r.id == subscriptionId then { r with is_auto_renewal := false } else r) }

/-- `renewSubscription`: wallet-funded auto-renewal is unsupported
(returns false); card-funded renewal looks up the most recently created
token matching the user and masked pan, charges the gateway with it and
creates the new subscription period on success.  The whole body sits in
a try/catch returning false, so every thrown error (invalid gateway
response, bad signature, JSON parse failure, `createSubscription`
rejection) surfaces as a failed attempt, keeping the mutations made up
to the throw. -/
def renewSubscription (env : Env) (st : DBState) (s : ExpiringSubscription) :
    Bool × DBState :=
  match s.payment_method with
  | .wallet => (false, st)
  | .card =>
    match (st.payment_tokens.filter (fun t =>
        t.user_id == s.user_id && t.pan_masked == s.masked_pan)).getLast? with
    | none => (false, st)
    | some paymentToken =>
      if !natTruthy s.price_id || !natTruthy s.currency_id || s.price == none then
        (false, st)
      else
        let amount := s.price.getD 0
        let (transactionId, st1) := createTransaction st {
          userId := s.user_id
          currencyId := s.currency_id.getD 0
          amount := amount
          txType := .subscription
          source := .card
          status := some .pending
          subscriptionPlanId := some s.subscription_plan_id
          subscriptionPriceId := s.price_id }
        let st2 := logGateway st1 "payment/recurrent"
        let resp := env.recurrentResp paymentToken.token amount
        if resp.success == none || resp.data == "" || resp.payment_id == "" ||
            resp.sign == "" then
          (false, st2)
        else if !verifyResponseSignature env.hmac resp.data resp.sign env.secretKey then
          (false, st2)
        else match env.decodePayment resp.data with
        | none => (false, st2)
        | some dec =>
          let st3 := updateTransaction st2 transactionId {
            status := some (mapPaymentStatus dec.payment_status)
            orderId := some dec.order_id
            paymentId := some (some resp.payment_id)
            transactionData := some resp.data }
          if resp.success == some true &&
              (dec.payment_status == "success" || dec.payment_status == "withdraw") then
            match createSubscription st3 {
              userId := s.user_id
              subscriptionPlanId := s.subscription_plan_id
              isAutoRenewal := true
              paymentMethod := some .card
              maskedPan := s.masked_pan } with
            | (.ok newSubscription, st4) =>
              let st5 := updateTransaction st4 transactionId {
                status := some .completed
                userSubscriptionId := some newSubscription.id }
              (true, st5)
            | (.error _, st4) => (false, st4)
          else (false, st3)

/-- `cleanupExpiredSubscriptions`: delete `user_subscriptions` rows with
`expired_at < NOW() - retention`; `cutoff` is that boundary instant. -/
def cleanupExpiredSubscriptions (st : DBState) (cutoff : Int) : DBState :=
  { st with user_subscriptions := st.user_subscriptions.filter (fun r =>
      !(r.expired_at < cutoff)) }

/-- The candidate loop inside `processRenewals`: renew each expiring
subscription in order, disabling auto-renewal on each failed attempt,
and record the per-candidate outcome. -/
def processRenewalsLoop (env : Env) (st : DBState) (subs : List ExpiringSubscription) :
    List (Nat × Bool) × DBState :=
  match subs with
  | [] => ([], st)
  | s :: rest =>
    let (renewed, st1) := renewSubscription env st s
    let st2 := if renewed then st1 else disableAutoRenewal st1 s.subscription_id
    let (outcomes, st3) := processRenewalsLoop env st2 rest
    ((s.subscription_id, renewed) :: outcomes, st3)

/-- `processRenewals`: run the candidate loop, counting successes and
failures, then sweep long-expired subscription rows. -/
def processRenewals (env : Env) (st : DBState) (subs : List ExpiringSubscription)
    (cutoff : Int) : (Nat × Nat) × DBState :=
  let (outcomes, st1) := processRenewalsLoop env st subs
  let successCount := outcomes.countP (fun o => o.2 == true)
  let failureCount := outcomes.countP (fun o => o.2 == false)
  ((successCount, failureCount), cleanupExpiredSubscriptions st1 cutoff)

/-! ## Helper lemmas -/

/-- Evaluation rule for `round2`: if the scaled value lies in `[n, n+1)`
then the floor is `n`. -/
theorem round2_eq (q : ℚ) (n : ℤ) (h1 : (n : ℚ) ≤ q * 100 + 1/2)
    (h2 : q * 100 + 1/2 < (n : ℚ) + 1) : round2 q = (n : ℚ) / 100 := by
  have hfl : (q * 100 + 1/2).floor = n := Int.floor_eq_iff.mpr ⟨h1, h2⟩
  rw [round2, hfl]

/-- `round2` fixes integers. -/
theorem round2_intCast (n : ℤ) : round2 (n : ℚ) = n := by
  have h := round2_eq (n : ℚ) (n * 100) (by push_cast; nlinarith) (by push_cast; nlinarith)
  rw [h]; push_cast; field_simp

/-! ## C8 — gateway status normalization -/

/-- C8: the gateway status mapping is a total, deterministic,
case-insensitive function: two strings with the same lower-casing map
identically; every string of the documented vocabulary maps to its
stated internal status; and every string whose lower-casing is outside
the recognized vocabulary maps to `pending` — so an unknown status
never yields `completed`, `failed` or `canceled`. -/
theorem mapPaymentStatus_total_caseInsensitive_fail_safe :
    (∀ s t : String, jsToLower s = jsToLower t → mapPaymentStatus s = mapPaymentStatus t) ∧
    (mapPaymentStatus "success" = .completed ∧ mapPaymentStatus "completed" = .completed ∧
     mapPaymentStatus "paid" = .completed ∧ mapPaymentStatus "approved" = .completed ∧
     mapPaymentStatus "withdraw" = .completed ∧ mapPaymentStatus "failed" = .failed ∧
     mapPaymentStatus "error" = .failed ∧ mapPaymentStatus "declined" = .failed ∧
     mapPaymentStatus "rejected" = .failed ∧ mapPaymentStatus "cancelled" = .canceled ∧
     mapPaymentStatus "canceled" = .canceled ∧ mapPaymentStatus "cancel" = .canceled ∧
     mapPaymentStatus "pending" = .pending ∧ mapPaymentStatus "processing" = .pending ∧
     mapPaymentStatus "waiting" = .pending ∧ mapPaymentStatus "created" = .pending ∧
     mapPaymentStatus "in_progress" = .pending ∧ mapPaymentStatus "initiated" = .pending) ∧
    (∀ s : String,
      jsToLower s ∉ completedVocab → jsToLower s ∉ failedVocab → jsToLower s ∉ canceledVocab →
      mapPaymentStatus s = .pending) := by
  refine ⟨fun s t h => by simp only [mapPaymentStatus, h], by decide, fun s h1 h2 h3 => ?_⟩
  simp [mapPaymentStatus, h1, h2, h3]

/-- Witness for C8 at concrete inputs: upper-case "PAID" maps like
"paid", and an undocumented status string maps to `pending`. -/
theorem mapPaymentStatus_witness :
    mapPaymentStatus "PAID" = mapPaymentStatus "paid" ∧
    mapPaymentStatus "mystery_gateway_status" = .pending := by
  constructor
  · exact mapPaymentStatus_total_caseInsensitive_fail_safe.1 "PAID" "paid" (by decide)
  · exact mapPaymentStatus_total_caseInsensitive_fail_safe.2.2 "mystery_gateway_status"
      (by decide) (by decide) (by decide)

/-! ## C5 — fee calculation -/

/-- Modelled from the spec wording of §4.2: clamp the raw fee to the
configured `[minFeeAmount, maxFeeAmount]` bounds — a configured min
raises a smaller fee up to the floor, and a configured max then caps
it. -/
def specClampFee (raw : ℚ) (lo hi : Option ℚ) : ℚ :=
  let raised := match lo with
    | none => raw
    | some m => max raw m
  match hi with
  | none => raised
  | some m => min raised m

/-- C5: `calculateFee` returns `feeAmount = amount * feePercentage /
100` clamped to the configured bounds, with `feeAmount` and
`finalAmount = amount - feeAmount` rounded to 2 decimals half-up after
(not before) the clamping; with no active rule the fee is zero and
`finalAmount = originalAmount = amount`.  The bound hypotheses record
that a configured bound is nonzero — the service layer stores `x ||
null`, so a zero bound is never persisted as configured. -/
theorem calculateFee_clamped_rounded (amount : ℚ) (fee? : Option PlatformFee) :
    (fee? = none → calculateFeeWith fee? amount = ⟨amount, 0, amount, 0⟩) ∧
    (∀ fee, fee? = some fee → fee.min_fee_amount ≠ some 0 → fee.max_fee_amount ≠ some 0 →
      calculateFeeWith fee? amount =
        { originalAmount := amount
          feeAmount := round2 (specClampFee (amount * fee.fee_percentage / 100)
            fee.min_fee_amount fee.max_fee_amount)
          finalAmount := round2 (amount - round2 (specClampFee
            (amount * fee.fee_percentage / 100) fee.min_fee_amount fee.max_fee_amount))
          feePercentage := fee.fee_percentage }) := by
  constructor
  · rintro rfl; rfl
  · rintro fee rfl hmin hmax
    set raw := amount * fee.fee_percentage / 100 with hraw
    simp only [calculateFeeWith, specClampFee, ← hraw]
    rcases hlo : fee.min_fee_amount with _ | m'
    · rcases hhi : fee.max_fee_amount with _ | m
      · rfl
      · dsimp only
        have hm : m ≠ 0 := fun h => hmax (by rw [hhi, h])
        have hxy : (if m ≠ 0 ∧ raw > m then m else raw) = min raw m := by
          rcases le_or_lt raw m with h | h
          · rw [if_neg fun hc => absurd hc.2 (not_lt.mpr h), min_eq_left h]
          · rw [if_pos ⟨hm, h⟩, min_eq_right h.le]
        rw [hxy]
    · have hm' : m' ≠ 0 := fun h => hmin (by rw [hlo, h])
      have hr : (if m' ≠ 0 ∧ raw < m' then m' else raw) = max raw m' := by
        rcases lt_or_le raw m' with h | h
        · rw [if_pos ⟨hm', h⟩, max_eq_right h.le]
        · rw [if_neg fun hc => absurd hc.2 (not_lt.mpr h), max_eq_left h]
      rcases hhi : fee.max_fee_amount with _ | m
      · dsimp only
        rw [hr]
      · dsimp only
        have hm : m ≠ 0 := fun h => hmax (by rw [hhi, h])
        rw [hr]
        have hxy : (if m ≠ 0 ∧ max raw m' > m then m else max raw m') = min (max raw m') m := by
          rcases le_or_lt (max raw m') m with h | h
          · rw [if_neg fun hc => absurd hc.2 (not_lt.mpr h), min_eq_left h]
          · rw [if_pos ⟨hm, h⟩, min_eq_right h.le]
        rw [hxy]

/-- Witness for C5 at the §8 scenario: rule 5 %, min 10, max 200 on an
amount of 500 gives a 25 fee and a 475 net. -/
theorem calculateFee_witness :
    calculateFeeWith (some ⟨1, 1, 5, some 10, some 200, true⟩) 500 =
      { originalAmount := 500, feeAmount := 25, finalAmount := 475, feePercentage := 5 } := by
  have h := (calculateFee_clamped_rounded 500 (some ⟨1, 1, 5, some 10, some 200, true⟩)).2
    ⟨1, 1, 5, some 10, some 200, true⟩ rfl (by simp) (by simp)
  rw [h]
  have h1 : specClampFee ((500 : ℚ) * 5 / 100) (some 10) (some 200) = 25 := by
    unfold specClampFee
    norm_num
  rw [h1]
  have h2 : round2 (25 : ℚ) = 25 := by
    have := round2_eq (25 : ℚ) 2500 (by norm_num) (by norm_num)
    rw [this]; norm_num
  rw [h2]
  have h3 : round2 ((500 : ℚ) - 25) = 475 := by
    have := round2_eq ((500 : ℚ) - 25) 47500 (by norm_num) (by norm_num)
    rw [this]; norm_num
  rw [h3]

/-! ## C2 — atomic wallet debit -/

/-- C2: both wallet debit operations run as one atomic unit of work
(one `db.transaction`, here one function application): with no balance
row the state is untouched; with `current < amount` they return the
insufficient-funds result and the state is untouched — no balance
mutation, no ledger row; otherwise they decrement the balance and
append the completed ledger transaction row in the same unit. -/
theorem deductUserWallet_atomic (st : DBState) (userId currencyId : Nat) (amount : ℚ)
    (barId : Option String) (userSubscriptionId : Nat) :
    (findBalanceRow st userId currencyId = none →
      deductUserWallet st userId currencyId amount barId = (.balanceNotFound, st) ∧
      deductUserWalletForSubscription st userId currencyId amount userSubscriptionId =
        (.balanceNotFound, st)) ∧
    (∀ b, findBalanceRow st userId currencyId = some b → b.amount < amount →
      deductUserWallet st userId currencyId amount barId =
        (.insufficient b.amount amount, st) ∧
      deductUserWalletForSubscription st userId currencyId amount userSubscriptionId =
        (.insufficient b.amount amount, st)) ∧
    (∀ b, findBalanceRow st userId currencyId = some b → ¬ b.amount < amount →
      deductUserWallet st userId currencyId amount barId =
        (.success st.nextTxnId,
         { mapBalanceRows st userId currencyId (fun a => a - amount) with
           transactions := st.transactions ++ [{
             id := st.nextTxnId
             user_id := userId
             currency_id := currencyId
             amount := amount
             txType := .withdraw
             source := .wallet
             status := some .completed
             bar_id := barId }]
           nextTxnId := st.nextTxnId + 1 }) ∧
      deductUserWalletForSubscription st userId currencyId amount userSubscriptionId =
        (.success st.nextTxnId,
         { mapBalanceRows st userId currencyId (fun a => a - amount) with
           transactions := st.transactions ++ [{
             id := st.nextTxnId
             user_id := userId
             currency_id := currencyId
             amount := amount
             txType := .subscription
             source := .wallet
             status := some .completed
             user_subscription_id := some userSubscriptionId }]
           nextTxnId := st.nextTxnId + 1 })) := by
  refine ⟨fun h => ?_, fun b hb hlt => ?_, fun b hb hge => ?_⟩
  · simp [deductUserWallet, deductUserWalletForSubscription, h]
  · simp [deductUserWallet, deductUserWalletForSubscription, hb, hlt]
  · simp [deductUserWallet, deductUserWalletForSubscription, hb, hge,
      createTransaction, mapBalanceRows]

/-- Witness for C2 at a concrete store: user 7 holds 100; a debit of
200 is rejected with no state change, for both debit operations. -/
theorem deductUserWallet_witness :
    deductUserWallet { balances := [⟨7, 1, 100⟩] } 7 1 200 none =
      (.insufficient 100 200, { balances := [⟨7, 1, 100⟩] }) ∧
    deductUserWalletForSubscription { balances := [⟨7, 1, 100⟩] } 7 1 200 5 =
      (.insufficient 100 200, { balances := [⟨7, 1, 100⟩] }) :=
  (deductUserWallet_atomic { balances := [⟨7, 1, 100⟩] } 7 1 200 none 5).2.1
    ⟨7, 1, 100⟩ (by decide) (by decide)

/-! ## C6 — at most one active fee rule per currency -/

/-- Number of active `platform_fees` rows for a currency. -/
def activeFeeCount (st : DBState) (c : Nat) : Nat :=
  st.platform_fees.countP (fun f => f.currency_id == c && f.is_active)

/-- Counterexample to C6 as stated: with an active rule (id 1) and an
inactive rule (id 2) for currency 1, `updatePlatformFee 2 {is_active :=
true}` yields two active rules for the currency — the update path does
not deactivate the previously active rule. -/
theorem updatePlatformFee_breaks_single_active :
    activeFeeCount
      { platform_fees := [⟨1, 1, 5, none, none, true⟩, ⟨2, 1, 7, none, none, false⟩],
        nextFeeId := 3 } 1 = 1 ∧
    activeFeeCount
      (updatePlatformFee
        { platform_fees := [⟨1, 1, 5, none, none, true⟩, ⟨2, 1, 7, none, none, false⟩],
          nextFeeId := 3 } 2 { is_active := some true }).2 1 = 2 := by
  constructor <;> rfl

/-- Mapping a function that can only falsify the predicate on each
element cannot increase the predicate count. -/
theorem countP_map_le_of_imp {α : Type} (l : List α) (g : α → α) (p : α → Bool)
    (h : ∀ x ∈ l, p (g x) = true → p x = true) :
    (l.map g).countP p ≤ l.countP p := by
  rw [List.countP_map]
  exact List.countP_mono_left h

/-- C6 amended: the at-most-one-active-rule-per-currency invariant is
preserved by `createPlatformFee` (which deactivates every active rule
of the currency and inserts the new one in the same transaction), and
by `updatePlatformFee` whenever the update does not set `is_active` to
true; re-activating a rule through the update path can break it. -/
theorem feeRule_invariant_preserved (st : DBState) (c : Nat)
    (hinv : activeFeeCount st c ≤ 1) :
    (∀ d, activeFeeCount (createPlatformFee st d).2 c ≤ 1) ∧
    (∀ feeId u, u.is_active ≠ some true →
      activeFeeCount (updatePlatformFee st feeId u).2 c ≤ 1) := by
  constructor
  · intro d
    simp only [activeFeeCount, createPlatformFee, List.countP_append]
    by_cases hc : d.currency_id = c
    · have hleft : (st.platform_fees.map (fun f =>
          if f.currency_id == d.currency_id && f.is_active then
            { f with is_active := false } else f)).countP
          (fun f => f.currency_id == c && f.is_active) = 0 := by
        rw [List.countP_eq_zero]
        intro f hf
        rcases List.mem_map.mp hf with ⟨g, _, rfl⟩
        by_cases hg : (g.currency_id == d.currency_id && g.is_active) = true
        · simp [hg]
        · rw [if_neg hg]
          intro hcon
          apply hg
          simp only [Bool.and_eq_true] at hcon ⊢
          exact ⟨by simp only [beq_iff_eq] at hcon ⊢; rw [hc]; exact hcon.1, hcon.2⟩
      rw [hleft]
      simp [hc]
    · have hleft : (st.platform_fees.map (fun f =>
          if f.currency_id == d.currency_id && f.is_active then
            { f with is_active := false } else f)).countP
          (fun f => f.currency_id == c && f.is_active) ≤
          st.platform_fees.countP (fun f => f.currency_id == c && f.is_active) := by
        refine countP_map_le_of_imp _ _ _ fun f _ hf => ?_
        by_cases hg : (f.currency_id == d.currency_id && f.is_active) = true
        · rw [if_pos hg] at hf
          simp at hf
        · rwa [if_neg hg] at hf
      have hright : List.countP (fun f => f.currency_id == c && f.is_active)
          [({ id := st.nextFeeId, currency_id := d.currency_id,
              fee_percentage := d.fee_percentage, min_fee_amount := d.min_fee_amount,
              max_fee_amount := d.max_fee_amount, is_active := true } : PlatformFee)] = 0 := by
        simp [hc]
      simp only [activeFeeCount] at hinv
      omega
  · intro feeId u hu
    rcases hfind : st.platform_fees.find? (fun f => f.id == feeId) with _ | f
    · simp only [activeFeeCount, updatePlatformFee, hfind]
      exact hinv
    · simp only [activeFeeCount, updatePlatformFee, hfind]
      simp only [activeFeeCount] at hinv
      refine le_trans (countP_map_le_of_imp _ _ _ fun g _ hg => ?_) hinv
      by_cases hid : (g.id == feeId) = true
      · rw [if_pos hid] at hg
        simp only [Bool.and_eq_true] at hg ⊢
        refine ⟨hg.1, ?_⟩
        rcases hua : u.is_active with _ | b
        · rw [hua] at hg
          exact hg.2
        · rcases b with _ | _
          · rw [hua] at hg
            exact absurd hg.2 (by simp)
          · exact absurd hua hu
      · rwa [if_neg hid] at hg

/-- Witness for C6 at a concrete store: starting from one active rule
for currency 1, creating a replacement rule keeps a single active rule,
and a non-activating update keeps it as well. -/
theorem feeRule_invariant_witness :
    activeFeeCount (createPlatformFee
      { platform_fees := [⟨1, 1, 5, none, none, true⟩], nextFeeId := 2 }
      { currency_id := 1, fee_percentage := 7 }).2 1 ≤ 1 ∧
    activeFeeCount (updatePlatformFee
      { platform_fees := [⟨1, 1, 5, none, none, true⟩], nextFeeId := 2 }
      1 { fee_percentage := some 9 }).2 1 ≤ 1 := by
  have h := feeRule_invariant_preserved
    { platform_fees := [⟨1, 1, 5, none, none, true⟩], nextFeeId := 2 } 1 (by decide)
  exact ⟨h.1 { currency_id := 1, fee_percentage := 7 },
    h.2 1 { fee_percentage := some 9 } (by simp)⟩

/-! ## C3 — wallet balance nonnegativity and debit sequences -/

/-- `round2` at 10. -/
theorem round2_ten : round2 (10 : ℚ) = 10 := by
  have h := round2_eq (10 : ℚ) 1000 (by norm_num) (by norm_num)
  rw [h]; norm_num

/-- `round2` at -5. -/
theorem round2_negFive : round2 (-5 : ℚ) = -5 := by
  have h := round2_eq (-5 : ℚ) (-500) (by norm_num) (by norm_num)
  rw [h]; norm_num

/-- Collaborator environment for the minimum-fee purchase scenario:
bar "bar1" (owned by profile "prof1" / user 9) is monetized at price 5. -/
def envMinFee : Env := {
  getBarById := fun b => if b == "bar1" then some ⟨"prof1", true, some 5, some "KZT"⟩ else none
  getUserIdByProfileId := fun p => if p == "prof1" then some 9 else none
  hasActiveSubscription := fun u => u == 9
  getProfileUserId := fun p => if p == "prof1" then some 9 else none }

/-- Store for the minimum-fee purchase scenario: buyer 7 holds exactly
the price, seller 9 holds 0, and the active fee rule for currency 1 is
5 % with a configured minimum fee of 10. -/
def stMinFee : DBState := {
  balances := [⟨7, 1, 5⟩, ⟨9, 1, 0⟩]
  platform_fees := [⟨1, 1, 5, some 10, none, true⟩] }

/-- Counterexample to C3 as stated: a wallet purchase of a bar priced 5
under a fee rule whose configured minimum fee is 10 credits the seller
the fee-reduced `finalAmount = -5`, driving the seller balance from 0
to -5 < 0 — the ledger operations do not keep every balance
nonnegative. -/
theorem sellerCredit_drives_balance_negative :
    findBalanceRow stMinFee 9 1 = some ⟨9, 1, 0⟩ ∧
    findBalanceRow (createPayment envMinFee stMinFee 7
      { email := "e", payment_type := .wallet, bar_id := "bar1" }).2 9 1 =
      some ⟨9, 1, -5⟩ ∧
    (-5 : ℚ) < 0 := by
  refine ⟨by decide, ?_, by norm_num⟩
  norm_num [createPayment, envMinFee, stMinFee, natTruthy, ratTruthy, strTruthy,
    hasUserPurchasedBar, checkUserBalance, findBalanceRow, deductUserWallet,
    mapBalanceRows, createTransaction, creditBarOwner, calculateFee,
    getActiveFeeForCurrency, calculateFeeWith, depositUserWallet,
    round2_ten, round2_negFive]
  decide

/-- Every balance row is nonnegative. -/
def allBalancesNonneg (st : DBState) : Prop := ∀ b ∈ st.balances, 0 ≤ b.amount

/-- The (user, currency) key is unique across balance rows — the
database constraint behind `onConflict(["user_id", "currency_id"])`. -/
def balancesKeyUnique (st : DBState) : Prop :=
  st.balances.Pairwise (fun x y => ¬(x.user_id = y.user_id ∧ x.currency_id = y.currency_id))

/-- A sequence of `deductUserWallet` calls against one (user, currency),
returning the per-call success flags and the final state. -/
def runDebits : DBState → Nat → Nat → List ℚ → List Bool × DBState
  | st, _, _, [] => ([], st)
  | st, userId, currencyId, a :: rest =>
    let (r, st1) := deductUserWallet st userId currencyId a none
    let ok := match r with
      | .success _ => true
      | _ => false
    let (rs, st2) := runDebits st1 userId currencyId rest
    (ok :: rs, st2)

/-- The greedy success pattern the spec describes: a call succeeds
exactly when its amount still fits in the remaining balance. -/
def greedyDebits (balance : ℚ) : List ℚ → List Bool
  | [] => []
  | a :: rest =>
    if balance < a then false :: greedyDebits balance rest
    else true :: greedyDebits (balance - a) rest

/-- Sum of the amounts whose flag is true. -/
def selectedSum : List ℚ → List Bool → ℚ
  | a :: as, f :: fs => (if f then a else 0) + selectedSum as fs
  | _, _ => 0

/-- `find?` commutes with a map that does not change the predicate. -/
theorem find?_map_of_pred_eq {α : Type} (l : List α) (g : α → α) (p : α → Bool)
    (hp : ∀ x, p (g x) = p x) :
    (l.map g).find? p = (l.find? p).map g := by
  induction l with
  | nil => rfl
  | cons x xs ih =>
    rcases hx : p x with _ | _
    · rw [List.map_cons, List.find?_cons, List.find?_cons, hp x, hx]
      exact ih
    · rw [List.map_cons, List.find?_cons, List.find?_cons, hp x, hx]
      rfl

/-- The balance row found for a key after an `UPDATE ... WHERE key` is
the found row with the update applied. -/
theorem findBalanceRow_mapBalanceRows (st : DBState) (u c : Nat) (f : ℚ → ℚ)
    (b : BalanceRow) (hrow : findBalanceRow st u c = some b) :
    findBalanceRow (mapBalanceRows st u c f) u c = some { b with amount := f b.amount } := by
  have hb := List.find?_some hrow
  unfold findBalanceRow mapBalanceRows
  rw [find?_map_of_pred_eq _ _ _ ?hp]
  · rw [show st.balances.find? (fun x => x.user_id == u && x.currency_id == c) = some b
        from hrow]
    dsimp only [Option.map]
    rw [if_pos hb]
  case hp =>
    intro x
    by_cases hx : (x.user_id == u && x.currency_id == c) = true
    · rw [if_pos hx]
    · rw [if_neg hx]

/-- With unique keys, any row matching the searched key is the found
row. -/
theorem key_match_eq_found (l : List BalanceRow) (u c : Nat) (b : BalanceRow)
    (huniq : l.Pairwise (fun x y => ¬(x.user_id = y.user_id ∧ x.currency_id = y.currency_id)))
    (hfind : l.find? (fun x => x.user_id == u && x.currency_id == c) = some b) :
    ∀ x ∈ l, (x.user_id == u && x.currency_id == c) = true → x = b := by
  induction l with
  | nil => simp at hfind
  | cons y ys ih =>
    rcases List.pairwise_cons.mp huniq with ⟨hy, hys⟩
    intro x hx hxp
    rcases hp : (y.user_id == u && y.currency_id == c) with _ | _
    · rw [List.find?_cons, hp] at hfind
      rcases List.mem_cons.mp hx with rfl | hx
      · exact absurd hxp (by rw [hp]; simp)
      · exact ih hys hfind x hx hxp
    · rw [List.find?_cons, hp] at hfind
      obtain rfl : y = b := by simpa using hfind
      rcases List.mem_cons.mp hx with rfl | hx
      · rfl
      · exfalso
        apply hy x hx
        simp only [Bool.and_eq_true, beq_iff_eq] at hp hxp
        exact ⟨hp.1.trans hxp.1.symm, hp.2.trans hxp.2.symm⟩

/-- `createTransaction` leaves the balances table untouched. -/
theorem createTransaction_balances (st : DBState) (p : CreateTransactionParams) :
    (createTransaction st p).2.balances = st.balances := rfl

/-- `createTransaction` does not change what `findBalanceRow` sees. -/
theorem findBalanceRow_createTransaction (st : DBState) (p : CreateTransactionParams)
    (u c : Nat) : findBalanceRow (createTransaction st p).2 u c = findBalanceRow st u c := rfl

/-- C3 amended: provided deposited amounts are nonnegative (the
seller-credit `finalAmount` can be negative when the configured minimum
fee exceeds the price — see the counterexample), the ledger operations
preserve nonnegativity of every balance, and a sequence of debits
against one (user, currency) with starting balance B succeeds exactly
greedily: each call succeeds iff its amount still fits, the balance
ends at B minus the sum of the successful amounts, and that sum never
exceeds a nonnegative B. -/
theorem wallet_nonneg_and_debit_sequences (st : DBState) (userId currencyId : Nat) :
    (∀ amount : ℚ, 0 ≤ amount → allBalancesNonneg st →
      allBalancesNonneg (depositUserWallet st userId currencyId amount)) ∧
    (∀ currencies : List Nat, allBalancesNonneg st →
      allBalancesNonneg (createUserWallet st userId currencies)) ∧
    (∀ (amount : ℚ) (barId : Option String), allBalancesNonneg st → balancesKeyUnique st →
      allBalancesNonneg (deductUserWallet st userId currencyId amount barId).2) ∧
    (∀ (B : ℚ) (amounts : List ℚ),
      findBalanceRow st userId currencyId = some ⟨userId, currencyId, B⟩ →
      (runDebits st userId currencyId amounts).1 = greedyDebits B amounts ∧
      findBalanceRow (runDebits st userId currencyId amounts).2 userId currencyId =
        some ⟨userId, currencyId, B - selectedSum amounts (greedyDebits B amounts)⟩ ∧
      (0 ≤ B → selectedSum amounts (greedyDebits B amounts) ≤ B)) := by
  refine ⟨?_, ?_, ?_, ?_⟩
  · intro amount hamt hnn
    rcases hrow : findBalanceRow st userId currencyId with _ | b
    · simp only [depositUserWallet, hrow]
      intro x hx
      rcases List.mem_append.mp hx with hx | hx
      · exact hnn x hx
      · rcases List.mem_singleton.mp hx with rfl
        exact hamt
    · simp only [depositUserWallet, hrow, mapBalanceRows]
      intro x hx
      rcases List.mem_map.mp hx with ⟨y, hy, rfl⟩
      by_cases hk : (y.user_id == userId && y.currency_id == currencyId) = true
      · rw [if_pos hk]
        exact add_nonneg (hnn y hy) hamt
      · rw [if_neg hk]
        exact hnn y hy
  · intro currencies hnn
    induction currencies generalizing st with
    | nil => simpa [createUserWallet] using hnn
    | cons cid rest ih =>
      rw [createUserWallet, List.foldl_cons]
      have hstep : allBalancesNonneg (match findBalanceRow st userId cid with
          | some _ => st
          | none => { st with balances := st.balances ++ [⟨userId, cid, 0⟩] }) := by
        rcases h : findBalanceRow st userId cid with _ | b
        · intro x hx
          rcases List.mem_append.mp hx with hx | hx
          · exact hnn x hx
          · rcases List.mem_singleton.mp hx with rfl
            exact le_refl 0
        · exact hnn
      exact ih _ hstep
  · intro amount barId hnn huniq
    rcases hrow : findBalanceRow st userId currencyId with _ | b
    · simp only [deductUserWallet, hrow]
      exact hnn
    · by_cases hlt : b.amount < amount
      · simp only [deductUserWallet, hrow, if_pos hlt]
        exact hnn
      · simp only [deductUserWallet, hrow, if_neg hlt]
        intro x hx
        rw [createTransaction_balances] at hx
        simp only [mapBalanceRows] at hx
        rcases List.mem_map.mp hx with ⟨y, hy, rfl⟩
        by_cases hk : (y.user_id == userId && y.currency_id == currencyId) = true
        · rw [if_pos hk]
          have hyb : y = b := key_match_eq_found st.balances userId currencyId b huniq hrow y hy hk
          subst hyb
          dsimp only
          have := not_lt.mp hlt
          linarith
        · rw [if_neg hk]
          exact hnn y hy
  · intro B amounts hrow
    induction amounts generalizing st B with
    | nil =>
      refine ⟨rfl, ?_, fun hB => ?_⟩
      · simpa [runDebits, selectedSum] using hrow
      · simpa [selectedSum, greedyDebits] using hB
    | cons a rest ih =>
      by_cases hlt : B < a
      · have hd : deductUserWallet st userId currencyId a none = (.insufficient B a, st) := by
          simp only [deductUserWallet, hrow, if_pos hlt]
        obtain ⟨ih1, ih2, ih3⟩ := ih st B hrow
        refine ⟨?_, ?_, fun hB => ?_⟩
        · simp only [runDebits, hd, greedyDebits, if_pos hlt]
          rw [ih1]
        · simp only [runDebits, hd, greedyDebits, if_pos hlt, selectedSum]
          simpa using ih2
        · simp only [greedyDebits, if_pos hlt, selectedSum]
          simpa using ih3 hB
      · have hd : deductUserWallet st userId currencyId a none =
            (.success st.nextTxnId,
             (createTransaction (mapBalanceRows st userId currencyId (fun x => x - a)) {
               userId := userId
               currencyId := currencyId
               amount := a
               txType := .withdraw
               source := .wallet
               barId := none
               status := some .completed }).2) := by
          simp only [deductUserWallet, hrow, if_neg hlt, createTransaction, mapBalanceRows]
        have hrow2 : findBalanceRow
            (createTransaction (mapBalanceRows st userId currencyId (fun x => x - a)) {
               userId := userId
               currencyId := currencyId
               amount := a
               txType := .withdraw
               source := .wallet
               barId := none
               status := some .completed }).2 userId currencyId =
            some ⟨userId, currencyId, B - a⟩ := by
          rw [findBalanceRow_createTransaction]
          exact findBalanceRow_mapBalanceRows st userId currencyId _ _ hrow
        obtain ⟨ih1, ih2, ih3⟩ := ih _ (B - a) hrow2
        refine ⟨?_, ?_, fun hB => ?_⟩
        · simp only [runDebits, hd, greedyDebits, if_neg hlt]
          rw [ih1]
        · simp only [runDebits, hd, greedyDebits, if_neg hlt, selectedSum]
          rw [ih2]
          simp only [Option.some.injEq, BalanceRow.mk.injEq, if_true, true_and]
          ring
        · simp only [greedyDebits, if_neg hlt, selectedSum]
          have hba : 0 ≤ B - a := sub_nonneg.mpr (not_lt.mp hlt)
          have := ih3 hba
          simp only [if_pos]
          linarith

/-- Witness for C3 amended, at a store holding balance 100 for user 7,
currency 1, and the debit sequence [60, 60, 30]. -/
theorem wallet_nonneg_witness :
    (runDebits { balances := [⟨7, 1, 100⟩] } 7 1 [60, 60, 30]).1 =
      greedyDebits 100 [60, 60, 30] ∧
    findBalanceRow (runDebits { balances := [⟨7, 1, 100⟩] } 7 1 [60, 60, 30]).2 7 1 =
      some ⟨7, 1, 100 - selectedSum [60, 60, 30] (greedyDebits 100 [60, 60, 30])⟩ ∧
    (0 ≤ (100 : ℚ) → selectedSum [60, 60, 30] (greedyDebits 100 [60, 60, 30]) ≤ 100) :=
  (wallet_nonneg_and_debit_sequences { balances := [⟨7, 1, 100⟩] } 7 1).2.2.2 100
    [60, 60, 30] (by decide)

/-! ## C4 — transaction records created pending before any gateway call -/

/-- `updateTransaction` leaves the gateway log untouched. -/
@[simp] theorem updateTransaction_gatewayLog (st : DBState) (id : Nat)
    (p : UpdateTransactionParams) : (updateTransaction st id p).gatewayLog = st.gatewayLog := rfl

/-- `createTransaction` leaves the gateway log untouched. -/
@[simp] theorem createTransaction_gatewayLog (st : DBState) (p : CreateTransactionParams) :
    (createTransaction st p).2.gatewayLog = st.gatewayLog := rfl

/-- `createToken` leaves the gateway log untouched. -/
@[simp] theorem createToken_gatewayLog (st : DBState) (b : CreateTokenBody) :
    (createToken st b).2.gatewayLog = st.gatewayLog := rfl

/-- `depositUserWallet` leaves the gateway log untouched. -/
@[simp] theorem depositUserWallet_gatewayLog (st : DBState) (u c : Nat) (a : ℚ) :
    (depositUserWallet st u c a).gatewayLog = st.gatewayLog := by
  unfold depositUserWallet
  cases findBalanceRow st u c <;> rfl

/-- `depositUserWallet` leaves the transactions table untouched. -/
@[simp] theorem depositUserWallet_transactions (st : DBState) (u c : Nat) (a : ℚ) :
    (depositUserWallet st u c a).transactions = st.transactions := by
  unfold depositUserWallet
  cases findBalanceRow st u c <;> rfl

/-- `creditBarOwner` leaves the gateway log untouched. -/
@[simp] theorem creditBarOwner_gatewayLog (env : Env) (st : DBState) (profileId : String)
    (amount : ℚ) (currencyId : Nat) (source : TxSource) (barId : String)
    (orderId paymentId : Option String) :
    (creditBarOwner env st profileId amount currencyId source barId orderId
      paymentId).gatewayLog = st.gatewayLog := by
  unfold creditBarOwner
  cases env.getProfileUserId profileId <;> simp

/-- Every transaction row after `creditBarOwner` was already there or
is the completed seller-credit row. -/
theorem creditBarOwner_transactions_sub (env : Env) (st : DBState) (profileId : String)
    (amount : ℚ) (currencyId : Nat) (source : TxSource) (barId : String)
    (orderId paymentId : Option String) :
    ∀ t ∈ (creditBarOwner env st profileId amount currencyId source barId orderId
        paymentId).transactions,
      t ∈ st.transactions ∨ t.status = some .completed := by
  unfold creditBarOwner
  cases env.getProfileUserId profileId with
  | none => exact fun t ht => Or.inl ht
  | some uid =>
    intro t ht
    simp only [createTransaction, depositUserWallet_transactions, List.mem_append,
      List.mem_singleton] at ht
    rcases ht with ht | rfl
    · exact Or.inl ht
    · exact Or.inr rfl

/-- Every transaction row after `deductUserWallet` was already there or
is the completed wallet-withdraw ledger row. -/
theorem deductUserWallet_transactions_sub (st : DBState) (u c : Nat) (amount : ℚ)
    (barId : Option String) :
    ∀ t ∈ (deductUserWallet st u c amount barId).2.transactions,
      t ∈ st.transactions ∨ t.status = some .completed := by
  unfold deductUserWallet
  rcases findBalanceRow st u c with _ | b
  · exact fun t ht => Or.inl ht
  · dsimp only
    by_cases hlt : b.amount < amount
    · rw [if_pos hlt]
      exact fun t ht => Or.inl ht
    · rw [if_neg hlt]
      intro t ht
      simp only [createTransaction, mapBalanceRows, List.mem_append,
        List.mem_singleton] at ht
      rcases ht with ht | rfl
      · exact Or.inl ht
      · exact Or.inr rfl

/-- Envionment fixture for the pending-record scenarios: bar "bar9"
(profile "prof9", owner user 9) monetized at 500, no fee rule. -/
def envBar9 : Env := {
  getBarById := fun b => if b == "bar9" then some ⟨"prof9", true, some 500, some "KZT"⟩ else none
  getUserIdByProfileId := fun p => if p == "prof9" then some 9 else none
  hasActiveSubscription := fun u => u == 9
  getProfileUserId := fun p => if p == "prof9" then some 9 else none }

/-- Store fixture: buyer 7 holds 1000, seller 9 holds 0, no rows else. -/
def stBar9 : DBState := { balances := [⟨7, 1, 1000⟩, ⟨9, 1, 0⟩] }

/-- Counterexample to C4 as stated: a wallet-funded purchase never
creates a pending record — the attempt starts with an empty
transactions table and ends with two records both created directly in
the terminal `completed` status (the buyer debit row is inserted
`completed` inside `deductUserWallet`, the seller credit row likewise). -/
theorem walletPurchase_record_created_terminal :
    stBar9.transactions = [] ∧
    ((createPayment envBar9 stBar9 7
        { email := "e", payment_type := .wallet, bar_id := "bar9" }).2.transactions.map
      (fun t => t.status)) = [some .completed, some .completed] := by
  refine ⟨rfl, ?_⟩
  norm_num [createPayment, envBar9, stBar9, natTruthy, ratTruthy, strTruthy,
    hasUserPurchasedBar, checkUserBalance, findBalanceRow, deductUserWallet,
    mapBalanceRows, createTransaction, creditBarOwner, calculateFee,
    getActiveFeeForCurrency, calculateFeeWith, depositUserWallet]
  decide

/-- `deductUserWallet` leaves the gateway log untouched. -/
@[simp] theorem deductUserWallet_gatewayLog (st : DBState) (u c : Nat) (amount : ℚ)
    (barId : Option String) :
    (deductUserWallet st u c amount barId).2.gatewayLog = st.gatewayLog := by
  unfold deductUserWallet
  rcases findBalanceRow st u c with _ | b
  · rfl
  · dsimp only
    by_cases hlt : b.amount < amount
    · rw [if_pos hlt]
    · rw [if_neg hlt]
      rfl

/-- C4 amended: under the purchase preconditions, a token- or
card-funded attempt creates its transaction record with status
`pending` before any gateway call — every gateway-log entry added by
the attempt already contains the pending record with the allocated id —
while a wallet-funded attempt performs no gateway call and creates its
records directly in the terminal `completed` status inside the debit
unit of work. -/
theorem record_pending_before_gateway (env : Env) (st : DBState) (userId : Nat)
    (body : CreatePaymentBody) (bar : Bar)
    (hemail : body.email ≠ "")
    (hbid : body.bar_id ≠ "")
    (hbar : env.getBarById body.bar_id = some bar)
    (hmon : bar.is_monetized = true)
    (howner : natTruthy (env.getUserIdByProfileId bar.profile_id) = true)
    (hsub : env.hasActiveSubscription ((env.getUserIdByProfileId bar.profile_id).getD 0) = true)
    (hprice : ratTruthy bar.price = true)
    (hcode : strTruthy bar.currencyCode = true)
    (hnew : hasUserPurchasedBar st userId body.bar_id = false)
    (htok : body.payment_type = .token → natTruthy body.token_id = true) :
    (body.payment_type ≠ .wallet →
      ∀ e ∈ (createPayment env st userId body).2.gatewayLog,
        e ∈ st.gatewayLog ∨
        ∃ t ∈ e.2, t.id = st.nextTxnId ∧ t.status = some .pending) ∧
    (body.payment_type = .wallet →
      (createPayment env st userId body).2.gatewayLog = st.gatewayLog ∧
      ∀ t ∈ (createPayment env st userId body).2.transactions,
        t ∈ st.transactions ∨ t.status = some .completed) := by
  have he : (body.email == "") = false := beq_eq_false_iff_ne.mpr hemail
  have hb : (body.bar_id == "") = false := beq_eq_false_iff_ne.mpr hbid
  rcases hpt : body.payment_type with _ | _ | _
  · -- wallet
    refine ⟨fun hne => absurd rfl hne, fun _ => ?_⟩
    have hwt : (PaymentType.wallet == PaymentType.token) = false := rfl
    simp only [createPayment, he, hb, hbar, hmon, howner, hsub, hprice, hcode, hnew, hpt, hwt,
      Bool.or_self, Bool.false_or, Bool.or_false, Bool.not_true, Bool.not_false,
      Bool.and_true, Bool.true_and, Bool.false_and, Bool.and_false, if_false, if_true,
      Bool.false_eq_true, Bool.true_eq_false, ite_false, ite_true]
    by_cases hbal :
        (checkUserBalance st userId body.currency_id ((bar.price).getD 0)).hasEnoughBalance = true
    · simp only [hbal, Bool.not_true, Bool.false_eq_true, if_false]
      rcases hd : deductUserWallet st userId body.currency_id ((bar.price).getD 0)
          (some body.bar_id) with ⟨r, st1⟩
      have hst1log : st1.gatewayLog = st.gatewayLog := by
        have := deductUserWallet_gatewayLog st userId body.currency_id
          ((bar.price).getD 0) (some body.bar_id)
        rwa [hd] at this
      have hst1tx : ∀ t ∈ st1.transactions,
          t ∈ st.transactions ∨ t.status = some .completed := by
        have := deductUserWallet_transactions_sub st userId body.currency_id
          ((bar.price).getD 0) (some body.bar_id)
        rwa [hd] at this
      rcases r with txId | _ | _ <;> simp only [hd]
      · constructor
        · rw [creditBarOwner_gatewayLog, hst1log]
        · intro t ht
          rcases creditBarOwner_transactions_sub env st1 bar.profile_id ((bar.price).getD 0)
              body.currency_id .wallet body.bar_id none none t ht with h | h
          · exact hst1tx t h
          · exact Or.inr h
      · exact ⟨hst1log, hst1tx⟩
      · exact ⟨hst1log, hst1tx⟩
    · simp only [Bool.not_eq_true] at hbal
      simp only [hbal, Bool.not_false, if_true]
      exact ⟨trivial, fun t ht => Or.inl ht⟩
  · -- token
    refine ⟨fun _ => ?_, fun hw => absurd hw (by decide)⟩
    have htk : natTruthy body.token_id = true := htok hpt
    have htt : (PaymentType.token == PaymentType.token) = true := rfl
    simp only [createPayment, he, hb, hbar, hmon, howner, hsub, hprice, hcode, hnew, hpt, htk,
      htt, Bool.or_self, Bool.false_or, Bool.or_false, Bool.not_true, Bool.not_false,
      Bool.and_true, Bool.true_and, Bool.false_and, Bool.and_false, if_false, if_true,
      Bool.false_eq_true, Bool.true_eq_false, ite_false, ite_true,
      createTransaction]
    have hgoal : ∀ e ∈ st.gatewayLog ++ [("payment/recurrent",
        st.transactions ++ [{
          id := st.nextTxnId
          user_id := userId
          currency_id := body.currency_id
          amount := (bar.price).getD 0
          txType := .withdraw
          source := .card
          status := some .pending
          bar_id := some body.bar_id : Txn}])],
        e ∈ st.gatewayLog ∨
        ∃ t ∈ e.2, t.id = st.nextTxnId ∧ t.status = some .pending := by
      intro e hee
      rcases List.mem_append.mp hee with hee | hee
      · exact Or.inl hee
      · rcases List.mem_singleton.mp hee with rfl
        refine Or.inr ⟨_, List.mem_append.mpr (Or.inr (List.mem_singleton.mpr rfl)), rfl, rfl⟩
    split
    · exact fun e hee => Or.inl (by simpa using hee)
    · split
      · exact fun e hee => hgoal e (by simpa [logGateway] using hee)
      · split
        · exact fun e hee => hgoal e (by simpa [logGateway] using hee)
        · split
          · exact fun e hee => hgoal e (by simpa [logGateway] using hee)
          · split <;> exact fun e hee => hgoal e (by simpa [logGateway] using hee)
  · -- card
    refine ⟨fun _ => ?_, fun hw => absurd hw (by decide)⟩
    have hct : (PaymentType.card == PaymentType.token) = false := rfl
    simp only [createPayment, he, hb, hbar, hmon, howner, hsub, hprice, hcode, hnew, hpt, hct,
      Bool.or_self, Bool.false_or, Bool.or_false, Bool.not_true, Bool.not_false,
      Bool.and_true, Bool.true_and, Bool.false_and, Bool.and_false, if_false, if_true,
      Bool.false_eq_true, Bool.true_eq_false, ite_false, ite_true,
      createTransaction]
    have hgoal : ∀ e ∈ st.gatewayLog ++ [("payment/create",
        st.transactions ++ [{
          id := st.nextTxnId
          user_id := userId
          currency_id := body.currency_id
          amount := (bar.price).getD 0
          txType := .withdraw
          source := .card
          status := some .pending
          bar_id := some body.bar_id : Txn}])],
        e ∈ st.gatewayLog ∨
        ∃ t ∈ e.2, t.id = st.nextTxnId ∧ t.status = some .pending := by
      intro e hee
      rcases List.mem_append.mp hee with hee | hee
      · exact Or.inl hee
      · rcases List.mem_singleton.mp hee with rfl
        refine Or.inr ⟨_, List.mem_append.mpr (Or.inr (List.mem_singleton.mpr rfl)), rfl, rfl⟩
    split
    · exact fun e hee => hgoal e (by simpa [logGateway] using hee)
    · split
      · exact fun e hee => hgoal e (by simpa [logGateway] using hee)
      · split <;> exact fun e hee => hgoal e (by simpa [logGateway] using hee)

/-- Witness for C4 amended: a concrete wallet-funded purchase attempt
makes no gateway call at all. -/
theorem record_pending_before_gateway_witness :
    (createPayment envBar9 stBar9 7
      { email := "e", payment_type := .wallet, bar_id := "bar9" }).2.gatewayLog =
      stBar9.gatewayLog :=
  ((record_pending_before_gateway envBar9 stBar9 7
      { email := "e", payment_type := .wallet, bar_id := "bar9" }
      ⟨"prof9", true, some 500, some "KZT"⟩
      (by decide) (by decide) (by decide) (by decide) (by decide) (by decide)
      (by decide) (by decide) (by decide) (by decide)).2 rfl).1

/-! ## C7 — signature verification fails closed -/

/-- C7: whenever the recomputed keyed hash over `data` does not
byte-equal the provided `sign`, the operation raises the
integrity error and applies no wallet, subscription, token or
transaction-record mutation beyond the pending record the attempt had
already created before the gateway exchange (which stays pending):
webhook callbacks leave the state completely untouched, and the
card-charge paths of `createPayment` and `topUp` leave balances,
subscriptions and stored tokens untouched and every transaction row
either pre-existing or the still-pending attempt record. -/
theorem signature_mismatch_fails_closed (env : Env) (st : DBState) (data sign : String) :
    (∀ dec, env.decodeCallback data = some dec →
      verifyResponseSignature env.hmac data sign env.secretKey = false →
      walletServiceCallback env st data sign = (.error .invalidSignature, st) ∧
      paymentServiceCallback env st data sign = (.error .invalidSignature, st)) ∧
    (∀ (userId : Nat) (body : CreatePaymentBody) (bar : Bar),
      body.payment_type = .card → body.email ≠ "" → body.bar_id ≠ "" →
      env.getBarById body.bar_id = some bar → bar.is_monetized = true →
      natTruthy (env.getUserIdByProfileId bar.profile_id) = true →
      env.hasActiveSubscription ((env.getUserIdByProfileId bar.profile_id).getD 0) = true →
      ratTruthy bar.price = true → strTruthy bar.currencyCode = true →
      hasUserPurchasedBar st userId body.bar_id = false →
      (env.createResp ((bar.price).getD 0) body.email).success ≠ none →
      (env.createResp ((bar.price).getD 0) body.email).data ≠ "" →
      (env.createResp ((bar.price).getD 0) body.email).payment_id ≠ "" →
      (env.createResp ((bar.price).getD 0) body.email).sign ≠ "" →
      verifyResponseSignature env.hmac (env.createResp ((bar.price).getD 0) body.email).data
        (env.createResp ((bar.price).getD 0) body.email).sign env.secretKey = false →
      (createPayment env st userId body).1 = .error .invalidSignature ∧
      (createPayment env st userId body).2.balances = st.balances ∧
      (createPayment env st userId body).2.user_subscriptions = st.user_subscriptions ∧
      (createPayment env st userId body).2.payment_tokens = st.payment_tokens ∧
      ∀ t ∈ (createPayment env st userId body).2.transactions,
        t ∈ st.transactions ∨ (t.id = st.nextTxnId ∧ t.status = some .pending)) ∧
    (∀ (userId : Nat) (body : TopUpBody),
      body.paymentType = .card → body.amount ≠ 0 → body.email ≠ "" →
      (env.createResp body.amount body.email).success ≠ none →
      (env.createResp body.amount body.email).data ≠ "" →
      (env.createResp body.amount body.email).payment_id ≠ "" →
      (env.createResp body.amount body.email).sign ≠ "" →
      verifyResponseSignature env.hmac (env.createResp body.amount body.email).data
        (env.createResp body.amount body.email).sign env.secretKey = false →
      (topUp env st userId body).1 = .error .invalidSignature ∧
      (topUp env st userId body).2.balances = st.balances ∧
      (topUp env st userId body).2.user_subscriptions = st.user_subscriptions ∧
      (topUp env st userId body).2.payment_tokens = st.payment_tokens ∧
      ∀ t ∈ (topUp env st userId body).2.transactions,
        t ∈ st.transactions ∨ (t.id = st.nextTxnId ∧ t.status = some .pending)) := by
  refine ⟨?_, ?_, ?_⟩
  · intro dec hdec hsig
    constructor
    · simp only [walletServiceCallback, hdec, hsig, Bool.not_false, if_true]
    · simp only [paymentServiceCallback, hdec, hsig, Bool.not_false, if_true]
  · intro userId body bar hpt hemail hbid hbar hmon howner hsub hprice hcode hnew
      hs1 hs2 hs3 hs4 hsig
    have he : (body.email == "") = false := beq_eq_false_iff_ne.mpr hemail
    have hb : (body.bar_id == "") = false := beq_eq_false_iff_ne.mpr hbid
    have hr1 : ((env.createResp ((bar.price).getD 0) body.email).success == none) = false :=
      beq_eq_false_iff_ne.mpr hs1
    have hr2 : ((env.createResp ((bar.price).getD 0) body.email).data == "") = false :=
      beq_eq_false_iff_ne.mpr hs2
    have hr3 : ((env.createResp ((bar.price).getD 0) body.email).payment_id == "") = false :=
      beq_eq_false_iff_ne.mpr hs3
    have hr4 : ((env.createResp ((bar.price).getD 0) body.email).sign == "") = false :=
      beq_eq_false_iff_ne.mpr hs4
    have hct : (PaymentType.card == PaymentType.token) = false := rfl
    simp only [createPayment, he, hb, hbar, hmon, howner, hsub, hprice, hcode, hnew, hpt,
      hct, hr1, hr2, hr3, hr4, hsig, Bool.or_self, Bool.false_or, Bool.or_false,
      Bool.not_true, Bool.not_false, Bool.and_true, Bool.true_and, Bool.false_and,
      Bool.and_false, if_false, if_true, Bool.false_eq_true, Bool.true_eq_false,
      ite_false, ite_true, createTransaction, logGateway]
    refine ⟨trivial, trivial, trivial, trivial, ?_⟩
    intro t ht
    simp only [List.mem_append, List.mem_singleton] at ht
    rcases ht with ht | rfl
    · exact Or.inl ht
    · exact Or.inr ⟨rfl, rfl⟩
  · intro userId body hpt hamt hemail hs1 hs2 hs3 hs4 hsig
    have ha : (body.amount == 0) = false := beq_eq_false_iff_ne.mpr hamt
    have he : (body.email == "") = false := beq_eq_false_iff_ne.mpr hemail
    have hr1 : ((env.createResp body.amount body.email).success == none) = false :=
      beq_eq_false_iff_ne.mpr hs1
    have hr2 : ((env.createResp body.amount body.email).data == "") = false :=
      beq_eq_false_iff_ne.mpr hs2
    have hr3 : ((env.createResp body.amount body.email).payment_id == "") = false :=
      beq_eq_false_iff_ne.mpr hs3
    have hr4 : ((env.createResp body.amount body.email).sign == "") = false :=
      beq_eq_false_iff_ne.mpr hs4
    have hct : (TopUpType.card == TopUpType.token) = false := rfl
    simp only [topUp, ha, he, hpt, hct, hr1, hr2, hr3, hr4, hsig, Bool.or_self,
      Bool.false_or, Bool.or_false, Bool.not_true, Bool.not_false, Bool.and_true,
      Bool.true_and, Bool.false_and, Bool.and_false, if_false, if_true,
      Bool.false_eq_true, Bool.true_eq_false, ite_false, ite_true,
      createTransaction, logGateway]
    refine ⟨trivial, trivial, trivial, trivial, ?_⟩
    intro t ht
    simp only [List.mem_append, List.mem_singleton] at ht
    rcases ht with ht | rfl
    · exact Or.inl ht
    · exact Or.inr ⟨rfl, rfl⟩

/-- Environment fixture whose gateway response carries a signature that
does not match the recomputed digest. -/
def envBadSig : Env := {
  getBarById := fun b => if b == "bar9" then some ⟨"prof9", true, some 500, some "KZT"⟩ else none
  getUserIdByProfileId := fun p => if p == "prof9" then some 9 else none
  hasActiveSubscription := fun u => u == 9
  getProfileUserId := fun p => if p == "prof9" then some 9 else none
  createResp := fun _ _ => { data := "D", payment_id := "p1", sign := "BAD", success := some true }
  decodeCallback := fun d =>
    if d == "D" then some { payment_id := 1, order_id := "pay_1", operation_status := "success" }
    else none
  hmac := fun sec d => sec ++ "|" ++ d
  secretKey := "K" }

/-- Witness for C7 at a concrete mismatched signature: the wallet
callback rejects and leaves the state untouched, and a card purchase
whose gateway response is mis-signed errors with the balances
untouched. -/
theorem signature_mismatch_witness :
    walletServiceCallback envBadSig stBar9 "D" "BAD" = (.error .invalidSignature, stBar9) ∧
    (createPayment envBadSig stBar9 7
      { email := "e", payment_type := .card, bar_id := "bar9" }).1 =
      .error .invalidSignature ∧
    (createPayment envBadSig stBar9 7
      { email := "e", payment_type := .card, bar_id := "bar9" }).2.balances =
      stBar9.balances := by
  have h := signature_mismatch_fails_closed envBadSig stBar9 "D" "BAD"
  have h2 := h.2.1 7 { email := "e", payment_type := .card, bar_id := "bar9" }
    ⟨"prof9", true, some 500, some "KZT"⟩ rfl (by decide) (by decide) (by decide)
    (by decide) (by decide) (by decide) (by decide) (by decide) (by decide) (by decide)
    (by decide) (by decide) (by decide) (by decide)
  exact ⟨(h.1 { payment_id := 1, order_id := "pay_1", operation_status := "success" }
    (by decide) (by decide)).1, h2.1, h2.2.1⟩

/-! ## C10 — unknown or foreign token id fails before the gateway -/

/-- C10: when the supplied token id does not identify a payment token
owned by the requesting user, both the token purchase and the token
top-up fail with the not-found error before any gateway request is sent
(the gateway log is unchanged), no balance changes, and the only new
transaction row is the attempt record, still pending. -/
theorem missing_token_fails_before_gateway (env : Env) (st : DBState) (userId : Nat) :
    (∀ (body : CreatePaymentBody) (bar : Bar),
      body.payment_type = .token → body.email ≠ "" → body.bar_id ≠ "" →
      env.getBarById body.bar_id = some bar → bar.is_monetized = true →
      natTruthy (env.getUserIdByProfileId bar.profile_id) = true →
      env.hasActiveSubscription ((env.getUserIdByProfileId bar.profile_id).getD 0) = true →
      ratTruthy bar.price = true → strTruthy bar.currencyCode = true →
      hasUserPurchasedBar st userId body.bar_id = false →
      natTruthy body.token_id = true →
      getPaymentTokenById st (body.token_id.getD 0) userId = none →
      (createPayment env st userId body).1 = .error .tokenNotFound ∧
      (createPayment env st userId body).2.gatewayLog = st.gatewayLog ∧
      (createPayment env st userId body).2.balances = st.balances ∧
      (createPayment env st userId body).2.transactions = st.transactions ++ [{
        id := st.nextTxnId
        user_id := userId
        currency_id := body.currency_id
        amount := (bar.price).getD 0
        txType := .withdraw
        source := .card
        status := some .pending
        bar_id := some body.bar_id }]) ∧
    (∀ body : TopUpBody,
      body.paymentType = .token → body.amount ≠ 0 → body.email ≠ "" →
      natTruthy body.tokenId = true →
      getPaymentTokenById st (body.tokenId.getD 0) userId = none →
      (topUp env st userId body).1 = .error .tokenNotFound ∧
      (topUp env st userId body).2.gatewayLog = st.gatewayLog ∧
      (topUp env st userId body).2.balances = st.balances ∧
      (topUp env st userId body).2.transactions = st.transactions ++ [{
        id := st.nextTxnId
        user_id := userId
        currency_id := body.currencyId
        amount := body.amount
        txType := .deposit
        source := .card
        status := some .pending }]) := by
  constructor
  · intro body bar hpt hemail hbid hbar hmon howner hsub hprice hcode hnew htk hmiss
    have he : (body.email == "") = false := beq_eq_false_iff_ne.mpr hemail
    have hb : (body.bar_id == "") = false := beq_eq_false_iff_ne.mpr hbid
    have htt : (PaymentType.token == PaymentType.token) = true := rfl
    simp only [getPaymentTokenById] at hmiss
    simp only [createPayment, he, hb, hbar, hmon, howner, hsub, hprice, hcode, hnew, hpt,
      htk, htt, Bool.or_self, Bool.false_or, Bool.or_false, Bool.not_true, Bool.not_false,
      Bool.and_true, Bool.true_and, Bool.false_and, Bool.and_false, if_false, if_true,
      Bool.false_eq_true, Bool.true_eq_false, ite_false, ite_true, createTransaction,
      getPaymentTokenById, hmiss]
    exact ⟨trivial, trivial, trivial, trivial⟩
  · intro body hpt hamt hemail htk hmiss
    have ha : (body.amount == 0) = false := beq_eq_false_iff_ne.mpr hamt
    have he : (body.email == "") = false := beq_eq_false_iff_ne.mpr hemail
    have htt : (TopUpType.token == TopUpType.token) = true := rfl
    simp only [getPaymentTokenById] at hmiss
    simp only [topUp, ha, he, hpt, htk, htt, Bool.or_self, Bool.false_or, Bool.or_false,
      Bool.not_true, Bool.not_false, Bool.and_true, Bool.true_and, Bool.false_and,
      Bool.and_false, if_false, if_true, Bool.false_eq_true, Bool.true_eq_false,
      ite_false, ite_true, createTransaction, getPaymentTokenById, hmiss]
    exact ⟨trivial, trivial, trivial, trivial⟩

/-- Witness for C10: user 7 holds no payment tokens, so a token
purchase with token id 5 404s with no gateway call, unchanged balances,
and the attempt record still pending. -/
theorem missing_token_witness :
    (createPayment envBar9 stBar9 7
      { email := "e", payment_type := .token, token_id := some 5, bar_id := "bar9" }).1 =
      .error .tokenNotFound ∧
    (createPayment envBar9 stBar9 7
      { email := "e", payment_type := .token, token_id := some 5, bar_id := "bar9" }).2.gatewayLog =
      stBar9.gatewayLog ∧
    (createPayment envBar9 stBar9 7
      { email := "e", payment_type := .token, token_id := some 5, bar_id := "bar9" }).2.balances =
      stBar9.balances := by
  have h := (missing_token_fails_before_gateway envBar9 stBar9 7).1
    { email := "e", payment_type := .token, token_id := some 5, bar_id := "bar9" }
    ⟨"prof9", true, some 500, some "KZT"⟩ rfl (by decide) (by decide) (by decide)
    (by decide) (by decide) (by decide) (by decide) (by decide) (by decide) (by decide)
    (by decide)
  exact ⟨h.1, h.2.1, h.2.2.1⟩

/-! ## C1 — webhook callback replay -/

/-- Environment fixture for the callback-replay scenario: "CBDATA"
decodes to a successful card-payment callback for order "pay_1" with no
recurring token, correctly signed under the keyed hash. -/
def envReplay : Env := {
  decodeCallback := fun d =>
    if d == "CBDATA" then
      some { payment_id := 42, order_id := "pay_1", operation_status := "success",
             recurrent_token := "", amount := 100, payment_date := "2024-01-01",
             pan_masked := "****1234" }
    else none
  hmac := fun sec d => sec ++ "|" ++ d
  secretKey := "K" }

/-- Store fixture: a pending card deposit of 100 for user 7 under order
"pay_1", wallet balance 0. -/
def stReplay : DBState := {
  balances := [⟨7, 1, 0⟩]
  transactions := [{ id := 1
                     user_id := 7
                     currency_id := 1
                     amount := 100
                     txType := .deposit
                     source := .card
                     status := some .pending
                     order_id := some "pay_1"
                     payment_id := some "p42" }]
  nextTxnId := 2 }

/-- C1: delivering the same signed success callback for order "pay_1"
twice credits the wallet twice.  After the first delivery the matched
record is terminal (`completed`) and the balance is 100; the second,
identical delivery — which the spec requires to be an idempotent no-op —
runs `depositUserWallet` again and leaves the balance at 200.  The
deposit branch of `walletService.callback` never consults the current
status of the matched record. -/
theorem walletCallback_replay_double_credits :
    (getTransactionByOrderId
        (walletServiceCallback envReplay stReplay "CBDATA" "K|CBDATA").2 "pay_1").map
      (fun t => t.status) = some (some .completed) ∧
    findBalanceRow (walletServiceCallback envReplay stReplay "CBDATA" "K|CBDATA").2 7 1 =
      some ⟨7, 1, 100⟩ ∧
    findBalanceRow (walletServiceCallback envReplay
        (walletServiceCallback envReplay stReplay "CBDATA" "K|CBDATA").2
        "CBDATA" "K|CBDATA").2 7 1 = some ⟨7, 1, 200⟩ := by
  have hrec : "pay_1".startsWith "recurrent_" = false := by decide
  have happ : ("K" ++ "|" ++ "CBDATA") = "K|CBDATA" := by decide
  norm_num [walletServiceCallback, envReplay, stReplay, getTransactionByOrderId,
    verifyResponseSignature, findBalanceRow, depositUserWallet, mapBalanceRows,
    updateTransaction, createToken, hrec, happ]

/-! ## C9 — renewal batch resilience -/

/-- `createTransaction` leaves the subscriptions table untouched. -/
@[simp] theorem createTransaction_user_subscriptions (st : DBState)
    (p : CreateTransactionParams) :
    (createTransaction st p).2.user_subscriptions = st.user_subscriptions := rfl

/-- `createTransaction` leaves the subscription id sequence untouched. -/
@[simp] theorem createTransaction_nextSubId (st : DBState) (p : CreateTransactionParams) :
    (createTransaction st p).2.nextSubId = st.nextSubId := rfl

/-- `logGateway` leaves the subscriptions table untouched. -/
@[simp] theorem logGateway_user_subscriptions (st : DBState) (k : String) :
    (logGateway st k).user_subscriptions = st.user_subscriptions := rfl

/-- `logGateway` leaves the subscription id sequence untouched. -/
@[simp] theorem logGateway_nextSubId (st : DBState) (k : String) :
    (logGateway st k).nextSubId = st.nextSubId := rfl

/-- `updateTransaction` leaves the subscriptions table untouched. -/
@[simp] theorem updateTransaction_user_subscriptions (st : DBState) (id : Nat)
    (p : UpdateTransactionParams) :
    (updateTransaction st id p).user_subscriptions = st.user_subscriptions := rfl

/-- `updateTransaction` leaves the subscription id sequence untouched. -/
@[simp] theorem updateTransaction_nextSubId (st : DBState) (id : Nat)
    (p : UpdateTransactionParams) :
    (updateTransaction st id p).nextSubId = st.nextSubId := rfl

/-- Auto-renewal is off on every subscription row carrying this id. -/
def autoRenewalOffAt (st : DBState) (sid : Nat) : Prop :=
  ∀ r ∈ st.user_subscriptions, r.id = sid → r.is_auto_renewal = false

/-- `createSubscription` only appends rows with fresh ids, so it
preserves a disabled flag on any existing id and never shrinks the id
sequence. -/
theorem createSubscription_preserves (st : DBState) (p : CreateSubscriptionParams)
    (sid : Nat) (hid : sid < st.nextSubId) :
    st.nextSubId ≤ (createSubscription st p).2.nextSubId ∧
    (autoRenewalOffAt st sid → autoRenewalOffAt (createSubscription st p).2 sid) := by
  unfold createSubscription
  split
  · exact ⟨le_refl _, fun h => h⟩
  · dsimp only
    split
    · exact ⟨le_refl _, fun h => h⟩
    · refine ⟨Nat.le_succ _, fun h x hx hxid => ?_⟩
      rcases List.mem_append.mp hx with hx | hx
      · exact h x hx hxid
      · rcases List.mem_singleton.mp hx with rfl
        exact absurd hxid (by dsimp only; omega)

/-- `createSubscription`, stated on its result equation. -/
theorem createSubscription_preserves_eq (st : DBState) (p : CreateSubscriptionParams)
    (r : Except String SubRow) (stA : DBState) (h : createSubscription st p = (r, stA))
    (sid : Nat) (hid : sid < st.nextSubId) :
    st.nextSubId ≤ stA.nextSubId ∧
    (autoRenewalOffAt st sid → autoRenewalOffAt stA sid) := by
  have hp := createSubscription_preserves st p sid hid
  rwa [h] at hp

/-- `renewSubscription` never touches `is_auto_renewal` of an existing
row (its only subscriptions-table write is appending the fresh renewal
row) and never shrinks the id sequence. -/
theorem renewSubscription_preserves (env : Env) (st : DBState) (s : ExpiringSubscription)
    (sid : Nat) (hid : sid < st.nextSubId) :
    st.nextSubId ≤ (renewSubscription env st s).2.nextSubId ∧
    (autoRenewalOffAt st sid → autoRenewalOffAt (renewSubscription env st s).2 sid) := by
  unfold renewSubscription
  split
  · exact ⟨le_refl _, fun h => h⟩
  · split
    · exact ⟨le_refl _, fun h => h⟩
    · split
      · exact ⟨le_refl _, fun h => h⟩
      · dsimp only [createTransaction]
        split
        · refine ⟨by simp, fun h x hx hxid => h x (by simpa using hx) hxid⟩
        · split
          · refine ⟨by simp, fun h x hx hxid => h x (by simpa using hx) hxid⟩
          · split
            · refine ⟨by simp, fun h x hx hxid => h x (by simpa using hx) hxid⟩
            · split
              · split
                · rename_i newSubscription st4 heq
                  have h4 := createSubscription_preserves_eq _ _ _ _ heq sid
                    (by simpa using hid)
                  refine ⟨by simpa using h4.1, fun h => ?_⟩
                  have h4b := h4.2 (fun x hx hxid => h x (by simpa using hx) hxid)
                  intro x hx hxid
                  exact h4b x (by simpa using hx) hxid
                · rename_i err st4 heq
                  have h4 := createSubscription_preserves_eq _ _ _ _ heq sid
                    (by simpa using hid)
                  refine ⟨by simpa using h4.1, fun h => ?_⟩
                  have h4b := h4.2 (fun x hx hxid => h x (by simpa using hx) hxid)
                  intro x hx hxid
                  exact h4b x hx hxid
              · refine ⟨by simp, fun h x hx hxid => h x (by simpa using hx) hxid⟩

/-- `disableAutoRenewal` turns the flag off on the addressed id,
preserves an off flag on any id, and leaves the id sequence alone. -/
theorem disableAutoRenewal_spec (st : DBState) (sid sid' : Nat) :
    autoRenewalOffAt (disableAutoRenewal st sid) sid ∧
    (autoRenewalOffAt st sid' → autoRenewalOffAt (disableAutoRenewal st sid) sid') ∧
    (disableAutoRenewal st sid).nextSubId = st.nextSubId := by
  refine ⟨?_, ?_, rfl⟩
  · intro r hr hrid
    simp only [disableAutoRenewal, List.mem_map] at hr
    rcases hr with ⟨y, hy, rfl⟩
    by_cases hk : (y.id == sid) = true
    · simp only [if_pos hk]
    · rw [if_neg hk] at hrid ⊢
      exact absurd (beq_iff_eq.mpr hrid) hk
  · intro h r hr hrid
    simp only [disableAutoRenewal, List.mem_map] at hr
    rcases hr with ⟨y, hy, rfl⟩
    by_cases hk : (y.id == sid) = true
    · simp only [if_pos hk]
    · rw [if_neg hk] at hrid ⊢
      exact h y hy hrid

/-- The retention sweep only deletes rows, so it preserves an off flag. -/
theorem cleanup_preserves (st : DBState) (cutoff : Int) (sid : Nat)
    (h : autoRenewalOffAt st sid) :
    autoRenewalOffAt (cleanupExpiredSubscriptions st cutoff) sid := by
  intro r hr hrid
  exact h r (List.mem_filter.mp hr).1 hrid

/-- One-step equation for the renewal loop. -/
theorem processRenewalsLoop_cons (env : Env) (st : DBState) (s : ExpiringSubscription)
    (rest : List ExpiringSubscription) :
    processRenewalsLoop env st (s :: rest) =
      ((s.subscription_id, (renewSubscription env st s).1) ::
        (processRenewalsLoop env
          (if (renewSubscription env st s).1 then (renewSubscription env st s).2
           else disableAutoRenewal (renewSubscription env st s).2 s.subscription_id) rest).1,
       (processRenewalsLoop env
          (if (renewSubscription env st s).1 then (renewSubscription env st s).2
           else disableAutoRenewal (renewSubscription env st s).2 s.subscription_id) rest).2) := by
  simp only [processRenewalsLoop]

/-- The renewal loop never re-enables auto-renewal on an existing id
and never shrinks the id sequence. -/
theorem processRenewalsLoop_preserves (env : Env) (subs : List ExpiringSubscription)
    (st : DBState) (sid : Nat) (hid : sid < st.nextSubId) (h : autoRenewalOffAt st sid) :
    autoRenewalOffAt (processRenewalsLoop env st subs).2 sid ∧
    st.nextSubId ≤ (processRenewalsLoop env st subs).2.nextSubId := by
  induction subs generalizing st with
  | nil => exact ⟨h, le_refl _⟩
  | cons s rest ih =>
    rw [processRenewalsLoop_cons]
    have hpres := renewSubscription_preserves env st s sid hid
    rcases hrw : (renewSubscription env st s).1 with _ | _
    · simp only [hrw, if_false, Bool.false_eq_true]
      have hd := disableAutoRenewal_spec (renewSubscription env st s).2 s.subscription_id sid
      have hnext : sid < (disableAutoRenewal (renewSubscription env st s).2
          s.subscription_id).nextSubId := by
        rw [hd.2.2]
        exact lt_of_lt_of_le hid hpres.1
      have hoff : autoRenewalOffAt (disableAutoRenewal (renewSubscription env st s).2
          s.subscription_id) sid := hd.2.1 (hpres.2 h)
      obtain ⟨ih1, ih2⟩ := ih _ hnext hoff
      exact ⟨ih1, le_trans hpres.1 (le_trans (le_of_eq hd.2.2.symm) ih2)⟩
    · simp only [hrw, if_true]
      obtain ⟨ih1, ih2⟩ := ih _ (lt_of_lt_of_le hid hpres.1) (hpres.2 h)
      exact ⟨ih1, le_trans hpres.1 ih2⟩

/-- Per-candidate outcomes of the loop: one outcome per candidate, kept
in order, and every failed candidate ends disabled in the loop's final
state. -/
theorem processRenewalsLoop_spec (env : Env) (subs : List ExpiringSubscription)
    (st : DBState) (hids : ∀ s ∈ subs, s.subscription_id < st.nextSubId) :
    ((processRenewalsLoop env st subs).1.map Prod.fst =
      subs.map (fun s => s.subscription_id)) ∧
    (∀ p ∈ (processRenewalsLoop env st subs).1, p.2 = false →
      autoRenewalOffAt (processRenewalsLoop env st subs).2 p.1) := by
  induction subs generalizing st with
  | nil => exact ⟨rfl, by simp [processRenewalsLoop]⟩
  | cons s rest ih =>
    rw [processRenewalsLoop_cons]
    have hpres := renewSubscription_preserves env st s s.subscription_id
      (hids s (List.mem_cons_self s rest))
    have hmono2 : ∀ st2 : DBState, st.nextSubId ≤ st2.nextSubId →
        ∀ s' ∈ rest, s'.subscription_id < st2.nextSubId := by
      intro st2 hle s' hs'
      exact lt_of_lt_of_le (hids s' (List.mem_cons_of_mem s hs')) hle
    rcases hrw : (renewSubscription env st s).1 with _ | _
    · simp only [hrw, if_false, Bool.false_eq_true]
      have hd := disableAutoRenewal_spec (renewSubscription env st s).2 s.subscription_id
        s.subscription_id
      have hle2 : st.nextSubId ≤ (disableAutoRenewal (renewSubscription env st s).2
          s.subscription_id).nextSubId := by
        rw [hd.2.2]
        exact hpres.1
      obtain ⟨ih1, ih3⟩ := ih _ (hmono2 _ hle2)
      refine ⟨by simpa using ih1, ?_⟩
      intro p hp hpfalse
      rcases List.mem_cons.mp hp with rfl | hp
      · have hoff0 : autoRenewalOffAt (disableAutoRenewal (renewSubscription env st s).2
            s.subscription_id) s.subscription_id := hd.1
        exact (processRenewalsLoop_preserves env rest _ s.subscription_id
          (by rw [hd.2.2]; exact lt_of_lt_of_le (hids s (List.mem_cons_self s rest)) hpres.1)
          hoff0).1
      · exact ih3 p hp hpfalse
    · simp only [hrw, if_true]
      obtain ⟨ih1, ih3⟩ := ih _ (hmono2 _ hpres.1)
      refine ⟨by simpa using ih1, ?_⟩
      intro p hp hpfalse
      rcases List.mem_cons.mp hp with rfl | hp
      · simp at hpfalse
      · exact ih3 p hp hpfalse

/-- In a list of Bool-flagged outcomes, the true count plus the false
count is the length. -/
theorem countP_bool_add (l : List (Nat × Bool)) :
    l.countP (fun o => o.2 == true) + l.countP (fun o => o.2 == false) = l.length := by
  induction l with
  | nil => rfl
  | cons x xs ih =>
    rcases hb : x.2 with _ | _ <;>
      simp [List.countP_cons, hb, ← ih] <;> omega

/-- C9: in a renewal run, a wallet payment method, a missing payment
token, or missing price information each make the attempt fail; the
loop completes every candidate (one outcome per candidate, so the
aggregate success count plus failure count equals the number of
candidates); and every failed candidate has auto-renewal disabled in
the run's final state — no failure aborts the batch. -/
theorem renewal_batch_resilient (env : Env) (st : DBState)
    (subs : List ExpiringSubscription) (cutoff : Int)
    (hids : ∀ s ∈ subs, s.subscription_id < st.nextSubId) :
    (∀ s : ExpiringSubscription,
      (s.payment_method = .wallet → (renewSubscription env st s).1 = false) ∧
      ((st.payment_tokens.filter (fun t =>
          t.user_id == s.user_id && t.pan_masked == s.masked_pan)).getLast? = none →
        (renewSubscription env st s).1 = false) ∧
      (s.price = none → (renewSubscription env st s).1 = false)) ∧
    ((processRenewalsLoop env st subs).1.length = subs.length) ∧
    ((processRenewals env st subs cutoff).1.1 + (processRenewals env st subs cutoff).1.2 =
      subs.length) ∧
    (∀ p ∈ (processRenewalsLoop env st subs).1, p.2 = false →
      ∀ r ∈ (processRenewals env st subs cutoff).2.user_subscriptions,
        r.id = p.1 → r.is_auto_renewal = false) := by
  obtain ⟨hmap, hoff⟩ := processRenewalsLoop_spec env subs st hids
  have hlen : (processRenewalsLoop env st subs).1.length = subs.length := by
    have := congrArg List.length hmap
    simpa using this
  refine ⟨?_, hlen, ?_, ?_⟩
  · intro s
    refine ⟨fun hw => ?_, fun htok => ?_, fun hp => ?_⟩
    · simp [renewSubscription, hw]
    · rcases hpm : s.payment_method with _ | _
      · simp [renewSubscription, hpm]
      · simp [renewSubscription, hpm, htok]
    · rcases hpm : s.payment_method with _ | _
      · simp [renewSubscription, hpm]
      · rcases htk : (st.payment_tokens.filter (fun t =>
            t.user_id == s.user_id && t.pan_masked == s.masked_pan)).getLast? with _ | tok
        · simp [renewSubscription, hpm, htk]
        · simp [renewSubscription, hpm, htk, hp]
  · simp only [processRenewals]
    rw [countP_bool_add]
    exact hlen
  · intro p hp hpfalse r hr hrid
    have hfin : autoRenewalOffAt (processRenewals env st subs cutoff).2 p.1 := by
      simp only [processRenewals]
      exact cleanup_preserves _ cutoff p.1 (hoff p hp hpfalse)
    exact hfin r hr hrid

/-- Environment with every collaborator absent — in particular no
gateway responses are ever acceptable. -/
def envEmpty : Env := {}

/-- Store for the renewal witness: two auto-renewal subscriptions, one
wallet-funded and one card-funded, and no stored payment tokens. -/
def stRenewals : DBState := {
  user_subscriptions := [
    { id := 1, user_id := 7, subscription_plan_id := 1, is_auto_renewal := true,
      payment_method := some .wallet },
    { id := 2, user_id := 8, subscription_plan_id := 1, is_auto_renewal := true,
      payment_method := some .card, masked_pan := some "**1" }]
  nextSubId := 3 }

/-- The expiring-subscriptions query result for the renewal witness. -/
def subsRenewals : List ExpiringSubscription := [
  { subscription_id := 1, user_id := 7, subscription_plan_id := 1, payment_method := .wallet },
  { subscription_id := 2, user_id := 8, subscription_plan_id := 1, payment_method := .card,
    masked_pan := some "**1", price_id := some 1, currency_id := some 1, price := some 10 }]

/-- Witness for C9: a run over a wallet-funded candidate and a
card-funded candidate with no stored token completes both and reports
0 successes and 2 failures. -/
theorem renewal_batch_witness :
    (processRenewalsLoop envEmpty stRenewals subsRenewals).1.length = subsRenewals.length ∧
    (processRenewals envEmpty stRenewals subsRenewals 0).1.1 +
      (processRenewals envEmpty stRenewals subsRenewals 0).1.2 = subsRenewals.length := by
  have h := renewal_batch_resilient envEmpty stRenewals subsRenewals 0 (by decide)
  exact ⟨h.2.1, h.2.2.1⟩

end Billing
